import Mathlib

/-!
Verification of the ifc-lite STEP/IFC ingestion-to-mesh pipeline.

This file is a shallow embedding, in Lean 4, of the parts of the ifc-lite
Rust sources needed to settle the claims of the specification:

  - src/rust/core/src/schema.rs       (IfcType, from_str, simple_hash)
  - src/rust/core/src/parser.rs       (tokenizer, parse_entity, EntityScanner)
  - src/rust/core/src/schema_gen.rs   (AttributeValue, DecodedEntity, IfcSchema)
  - src/rust/core/src/decoder.rs      (build_entity_index, EntityDecoder)
  - src/rust/geometry/src/mesh.rs     (Mesh, merge, merge_all, bounds)
  - src/rust/geometry/src/profile.rs  (Profile2D, triangulate)
  - src/rust/geometry/src/extrusion.rs (extrude_profile, apply_transform)
  - src/rust/geometry/src/profiles.rs (ProfileProcessor: parametric profiles,
    trim-parameter extraction, trimmed conic sampling)
  - src/rust/geometry/src/processors.rs (ExtrudedAreaSolidProcessor,
    FacetedBrep bound orientation)
  - src/rust/geometry/src/router.rs   (transform_mesh normal handling)

Modelling conventions:
  - Rust machine integers are Nat / Int with explicit reduction modulo 2^32
    (or 2^64) exactly where the source uses wrapping arithmetic; checked
    conversions that can fail are Option.
  - Rust f64 / f32 values are modelled as exact rationals.  The square root
    (used only to normalize vectors) is modelled by rat_sqrt below, which is
    exact on perfect squares; every normalization that a verified claim
    depends on happens at a perfect square.  Claims that would depend on
    genuine floating-point rounding are not settled through this model.
  - The text buffer is a List Char of 7-bit ASCII characters (the input
    format guarantees ASCII), so byte offsets and char offsets coincide.
  - The external earcutr triangulator is an explicit function parameter:
    every theorem that touches a triangulated mesh is proved for an
    arbitrary triangulator output, which covers the actual crate.
  - Fallible Rust functions returning Result are Except String / Option;
    error message text is not compared anywhere, so messages are abridged.
-/

set_option maxRecDepth 8000
set_option maxHeartbeats 1000000

namespace IfcLite

/-! ## Small numeric helpers -/

/-- Rational model of the f64 square root: floor square roots of numerator
and denominator.  Exact whenever both are perfect squares, which holds at
every call site a verified claim depends on (normalizing axis-aligned
directions and axis-aligned edge normals). -/
def rat_sqrt (q : ℚ) : ℚ :=
  if q ≤ 0 then 0 else (Nat.sqrt q.num.toNat : ℚ) / (Nat.sqrt q.den : ℚ)

/-- Decimal value of a run of ASCII digit characters. -/
def dec_digits_val (ds : List Char) : Nat :=
  ds.foldl (fun a c => a * 10 + (c.toNat - 48)) 0

/-- Checked u32 parse of a digit run, as performed by str::parse::<u32> in
entity_ref and parse_entity: fails (None) when the value needs 33 bits. -/
def parse_u32_checked (ds : List Char) : Option Nat :=
  if ds.isEmpty then none
  else if dec_digits_val ds < 4294967296 then some (dec_digits_val ds) else none

/-! ## schema.rs : IfcType -/

/-- simple_hash from schema.rs: djb2 over the bytes with u32 wrapping,
truncated to 16 bits. -/
def simple_hash (s : String) : Nat :=
  (s.data.foldl (fun h c => (h * 32 % 4294967296 + h) % 4294967296 + c.toNat % 256) 5381)
    % 65536

/-- IfcType from schema.rs: the full closed catalog of recognized type
names, plus an Unknown variant carrying the 16-bit simple_hash of the
original name. -/
inductive IfcType where
  | IfcWall
  | IfcWallStandardCase
  | IfcSlab
  | IfcBeam
  | IfcColumn
  | IfcRoof
  | IfcStair
  | IfcRailing
  | IfcCurtainWall
  | IfcPlate
  | IfcMember
  | IfcFooting
  | IfcPile
  | IfcCovering
  | IfcBuildingElementProxy
  | IfcBuildingElementPart
  | IfcElementAssembly
  | IfcReinforcingBar
  | IfcReinforcingMesh
  | IfcTendon
  | IfcDoor
  | IfcWindow
  | IfcOpeningElement
  | IfcSpace
  | IfcBuildingStorey
  | IfcBuilding
  | IfcSite
  | IfcProject
  | IfcRelAggregates
  | IfcRelContainedInSpatialStructure
  | IfcRelDefinesByProperties
  | IfcRelAssociatesMaterial
  | IfcRelVoidsElement
  | IfcRelFillsElement
  | IfcPropertySet
  | IfcPropertySingleValue
  | IfcPropertyEnumeratedValue
  | IfcElementQuantity
  | IfcQuantityLength
  | IfcQuantityArea
  | IfcQuantityVolume
  | IfcQuantityCount
  | IfcQuantityWeight
  | IfcQuantityTime
  | IfcPhysicalSimpleQuantity
  | IfcMaterial
  | IfcMaterialLayer
  | IfcMaterialLayerSet
  | IfcMaterialLayerSetUsage
  | IfcShapeRepresentation
  | IfcProductDefinitionShape
  | IfcExtrudedAreaSolid
  | IfcSweptDiskSolid
  | IfcRevolvedAreaSolid
  | IfcFacetedBrep
  | IfcTriangulatedFaceSet
  | IfcPolygonalFaceSet
  | IfcBooleanResult
  | IfcBooleanClippingResult
  | IfcAxis2Placement3D
  | IfcAxis2Placement2D
  | IfcLocalPlacement
  | IfcCartesianPoint
  | IfcDirection
  | IfcPolyline
  | IfcArbitraryClosedProfileDef
  | IfcArbitraryProfileDefWithVoids
  | IfcRectangleProfileDef
  | IfcCircleProfileDef
  | IfcIShapeProfileDef
  | IfcLShapeProfileDef
  | IfcUShapeProfileDef
  | IfcTShapeProfileDef
  | IfcCShapeProfileDef
  | IfcZShapeProfileDef
  | IfcCircleHollowProfileDef
  | IfcCompositeProfileDef
  | IfcIndexedPolyCurve
  | IfcCompositeCurve
  | IfcCompositeCurveSegment
  | IfcTrimmedCurve
  | IfcCircle
  | IfcEllipse
  | IfcLine
  | IfcCartesianPointList2D
  | IfcCartesianPointList3D
  | IfcMappedItem
  | IfcRepresentationMap
  | IfcPipeSegment
  | IfcDuctSegment
  | IfcCableSegment
  | IfcFurnishingElement
  | IfcFurniture
  | IfcAnnotation
  | IfcGrid
  | IfcStyledItem
  | IfcPresentationStyleAssignment
  | IfcSurfaceStyle
  | IfcSurfaceStyleRendering
  | IfcSurfaceStyleShading
  | IfcColourRgb
  | IfcOwnerHistory
  | IfcPerson
  | IfcOrganization
  | IfcApplication
  | Unknown (hash : Nat)

/-- Distinct numeric tag for each IfcType variant.  The mapping is
injective by construction (variants get 0..104 and Unknown h gets 105 + h);
it models the derived PartialEq of the source enum. -/
def IfcType.tag : IfcType → Nat
  | .IfcWall => 0
  | .IfcWallStandardCase => 1
  | .IfcSlab => 2
  | .IfcBeam => 3
  | .IfcColumn => 4
  | .IfcRoof => 5
  | .IfcStair => 6
  | .IfcRailing => 7
  | .IfcCurtainWall => 8
  | .IfcPlate => 9
  | .IfcMember => 10
  | .IfcFooting => 11
  | .IfcPile => 12
  | .IfcCovering => 13
  | .IfcBuildingElementProxy => 14
  | .IfcBuildingElementPart => 15
  | .IfcElementAssembly => 16
  | .IfcReinforcingBar => 17
  | .IfcReinforcingMesh => 18
  | .IfcTendon => 19
  | .IfcDoor => 20
  | .IfcWindow => 21
  | .IfcOpeningElement => 22
  | .IfcSpace => 23
  | .IfcBuildingStorey => 24
  | .IfcBuilding => 25
  | .IfcSite => 26
  | .IfcProject => 27
  | .IfcRelAggregates => 28
  | .IfcRelContainedInSpatialStructure => 29
  | .IfcRelDefinesByProperties => 30
  | .IfcRelAssociatesMaterial => 31
  | .IfcRelVoidsElement => 32
  | .IfcRelFillsElement => 33
  | .IfcPropertySet => 34
  | .IfcPropertySingleValue => 35
  | .IfcPropertyEnumeratedValue => 36
  | .IfcElementQuantity => 37
  | .IfcQuantityLength => 38
  | .IfcQuantityArea => 39
  | .IfcQuantityVolume => 40
  | .IfcQuantityCount => 41
  | .IfcQuantityWeight => 42
  | .IfcQuantityTime => 43
  | .IfcPhysicalSimpleQuantity => 44
  | .IfcMaterial => 45
  | .IfcMaterialLayer => 46
  | .IfcMaterialLayerSet => 47
  | .IfcMaterialLayerSetUsage => 48
  | .IfcShapeRepresentation => 49
  | .IfcProductDefinitionShape => 50
  | .IfcExtrudedAreaSolid => 51
  | .IfcSweptDiskSolid => 52
  | .IfcRevolvedAreaSolid => 53
  | .IfcFacetedBrep => 54
  | .IfcTriangulatedFaceSet => 55
  | .IfcPolygonalFaceSet => 56
  | .IfcBooleanResult => 57
  | .IfcBooleanClippingResult => 58
  | .IfcAxis2Placement3D => 59
  | .IfcAxis2Placement2D => 60
  | .IfcLocalPlacement => 61
  | .IfcCartesianPoint => 62
  | .IfcDirection => 63
  | .IfcPolyline => 64
  | .IfcArbitraryClosedProfileDef => 65
  | .IfcArbitraryProfileDefWithVoids => 66
  | .IfcRectangleProfileDef => 67
  | .IfcCircleProfileDef => 68
  | .IfcIShapeProfileDef => 69
  | .IfcLShapeProfileDef => 70
  | .IfcUShapeProfileDef => 71
  | .IfcTShapeProfileDef => 72
  | .IfcCShapeProfileDef => 73
  | .IfcZShapeProfileDef => 74
  | .IfcCircleHollowProfileDef => 75
  | .IfcCompositeProfileDef => 76
  | .IfcIndexedPolyCurve => 77
  | .IfcCompositeCurve => 78
  | .IfcCompositeCurveSegment => 79
  | .IfcTrimmedCurve => 80
  | .IfcCircle => 81
  | .IfcEllipse => 82
  | .IfcLine => 83
  | .IfcCartesianPointList2D => 84
  | .IfcCartesianPointList3D => 85
  | .IfcMappedItem => 86
  | .IfcRepresentationMap => 87
  | .IfcPipeSegment => 88
  | .IfcDuctSegment => 89
  | .IfcCableSegment => 90
  | .IfcFurnishingElement => 91
  | .IfcFurniture => 92
  | IfcType.IfcAnnotation => 93
  | .IfcGrid => 94
  | .IfcStyledItem => 95
  | .IfcPresentationStyleAssignment => 96
  | .IfcSurfaceStyle => 97
  | .IfcSurfaceStyleRendering => 98
  | .IfcSurfaceStyleShading => 99
  | .IfcColourRgb => 100
  | .IfcOwnerHistory => 101
  | .IfcPerson => 102
  | .IfcOrganization => 103
  | .IfcApplication => 104
  | .Unknown h => 105 + h

instance : BEq IfcType := ⟨fun a b => a.tag == b.tag⟩

/-- IfcType::from_str (schema.rs): the full name-to-variant match; every
unlisted name falls through to Unknown(simple_hash name).  The source wraps
the result in Some unconditionally. -/
def IfcType.from_str (s : String) : Option IfcType :=
  let t : IfcType :=
    match s with
    | "IFCWALL" => .IfcWall
    | "IFCWALLSTANDARDCASE" => .IfcWallStandardCase
    | "IFCSLAB" => .IfcSlab
    | "IFCBEAM" => .IfcBeam
    | "IFCCOLUMN" => .IfcColumn
    | "IFCROOF" => .IfcRoof
    | "IFCSTAIR" => .IfcStair
    | "IFCRAILING" => .IfcRailing
    | "IFCCURTAINWALL" => .IfcCurtainWall
    | "IFCPLATE" => .IfcPlate
    | "IFCMEMBER" => .IfcMember
    | "IFCFOOTING" => .IfcFooting
    | "IFCPILE" => .IfcPile
    | "IFCCOVERING" => .IfcCovering
    | "IFCBUILDINGELEMENTPROXY" => .IfcBuildingElementProxy
    | "IFCBUILDINGELEMENTPART" => .IfcBuildingElementPart
    | "IFCELEMENTASSEMBLY" => .IfcElementAssembly
    | "IFCREINFORCINGBAR" => .IfcReinforcingBar
    | "IFCREINFORCINGMESH" => .IfcReinforcingMesh
    | "IFCTENDON" => .IfcTendon
    | "IFCDOOR" => .IfcDoor
    | "IFCWINDOW" => .IfcWindow
    | "IFCOPENINGELEMENT" => .IfcOpeningElement
    | "IFCSPACE" => .IfcSpace
    | "IFCBUILDINGSTOREY" => .IfcBuildingStorey
    | "IFCBUILDING" => .IfcBuilding
    | "IFCSITE" => .IfcSite
    | "IFCPROJECT" => .IfcProject
    | "IFCRELAGGREGATES" => .IfcRelAggregates
    | "IFCRELCONTAINEDINSPATIALSTRUCTURE" => .IfcRelContainedInSpatialStructure
    | "IFCRELDEFINESBYPROPERTIES" => .IfcRelDefinesByProperties
    | "IFCRELASSOCIATESMATERIAL" => .IfcRelAssociatesMaterial
    | "IFCRELVOIDSELEMENT" => .IfcRelVoidsElement
    | "IFCRELFILLSELEMENT" => .IfcRelFillsElement
    | "IFCPROPERTYSET" => .IfcPropertySet
    | "IFCPROPERTYSINGLEVALUE" => .IfcPropertySingleValue
    | "IFCPROPERTYENUMERATEDVALUE" => .IfcPropertyEnumeratedValue
    | "IFCELEMENTQUANTITY" => .IfcElementQuantity
    | "IFCQUANTITYLENGTH" => .IfcQuantityLength
    | "IFCQUANTITYAREA" => .IfcQuantityArea
    | "IFCQUANTITYVOLUME" => .IfcQuantityVolume
    | "IFCQUANTITYCOUNT" => .IfcQuantityCount
    | "IFCQUANTITYWEIGHT" => .IfcQuantityWeight
    | "IFCQUANTITYTIME" => .IfcQuantityTime
    | "IFCPHYSICALSIMPLEQUANTITY" => .IfcPhysicalSimpleQuantity
    | "IFCMATERIAL" => .IfcMaterial
    | "IFCMATERIALLAYER" => .IfcMaterialLayer
    | "IFCMATERIALLAYERSET" => .IfcMaterialLayerSet
    | "IFCMATERIALLAYERSETUSAGE" => .IfcMaterialLayerSetUsage
    | "IFCSHAPEREPRESENTATION" => .IfcShapeRepresentation
    | "IFCPRODUCTDEFINITIONSHAPE" => .IfcProductDefinitionShape
    | "IFCEXTRUDEDAREASOLID" => .IfcExtrudedAreaSolid
    | "IFCSWEPTDISKSOLID" => .IfcSweptDiskSolid
    | "IFCREVOLVEDAREASOLID" => .IfcRevolvedAreaSolid
    | "IFCFACETEDBREP" => .IfcFacetedBrep
    | "IFCTRIANGULATEDFACESET" => .IfcTriangulatedFaceSet
    | "IFCPOLYGONALFACESET" => .IfcPolygonalFaceSet
    | "IFCBOOLEANRESULT" => .IfcBooleanResult
    | "IFCBOOLEANCLIPPINGRESULT" => .IfcBooleanClippingResult
    | "IFCAXIS2PLACEMENT3D" => .IfcAxis2Placement3D
    | "IFCAXIS2PLACEMENT2D" => .IfcAxis2Placement2D
    | "IFCLOCALPLACEMENT" => .IfcLocalPlacement
    | "IFCCARTESIANPOINT" => .IfcCartesianPoint
    | "IFCDIRECTION" => .IfcDirection
    | "IFCPOLYLINE" => .IfcPolyline
    | "IFCARBITRARYCLOSEDPROFILEDEF" => .IfcArbitraryClosedProfileDef
    | "IFCARBITRARYPROFILEDEFWITHVOIDS" => .IfcArbitraryProfileDefWithVoids
    | "IFCRECTANGLEPROFILEDEF" => .IfcRectangleProfileDef
    | "IFCCIRCLEPROFILEDEF" => .IfcCircleProfileDef
    | "IFCISHAPEPROFILEDEF" => .IfcIShapeProfileDef
    | "IFCLSHAPEPROFILEDEF" => .IfcLShapeProfileDef
    | "IFCUSHAPEPROFILEDEF" => .IfcUShapeProfileDef
    | "IFCTSHAPEPROFILEDEF" => .IfcTShapeProfileDef
    | "IFCCSHAPEPROFILEDEF" => .IfcCShapeProfileDef
    | "IFCZSHAPEPROFILEDEF" => .IfcZShapeProfileDef
    | "IFCCIRCLEHOLLOWPROFILEDEF" => .IfcCircleHollowProfileDef
    | "IFCCOMPOSITEPROFILEDEF" => .IfcCompositeProfileDef
    | "IFCINDEXEDPOLYCURVE" => .IfcIndexedPolyCurve
    | "IFCCOMPOSITECURVE" => .IfcCompositeCurve
    | "IFCCOMPOSITECURVESEGMENT" => .IfcCompositeCurveSegment
    | "IFCTRIMMEDCURVE" => .IfcTrimmedCurve
    | "IFCCIRCLE" => .IfcCircle
    | "IFCELLIPSE" => .IfcEllipse
    | "IFCLINE" => .IfcLine
    | "IFCCARTESIANPOINTLIST2D" => .IfcCartesianPointList2D
    | "IFCCARTESIANPOINTLIST3D" => .IfcCartesianPointList3D
    | "IFCMAPPEDITEM" => .IfcMappedItem
    | "IFCREPRESENTATIONMAP" => .IfcRepresentationMap
    | "IFCPIPESEGMENT" => .IfcPipeSegment
    | "IFCDUCTSEGMENT" => .IfcDuctSegment
    | "IFCCABLESEGMENT" => .IfcCableSegment
    | "IFCFURNISHINGELEMENT" => .IfcFurnishingElement
    | "IFCFURNITURE" => .IfcFurniture
    | "IFCANNOTATION" => IfcType.IfcAnnotation
    | "IFCGRID" => .IfcGrid
    | "IFCSTYLEDITEM" => .IfcStyledItem
    | "IFCPRESENTATIONSTYLEASSIGNMENT" => .IfcPresentationStyleAssignment
    | "IFCSURFACESTYLE" => .IfcSurfaceStyle
    | "IFCSURFACESTYLERENDERING" => .IfcSurfaceStyleRendering
    | "IFCSURFACESTYLESHADING" => .IfcSurfaceStyleShading
    | "IFCCOLOURRGB" => .IfcColourRgb
    | "IFCOWNERHISTORY" => .IfcOwnerHistory
    | "IFCPERSON" => .IfcPerson
    | "IFCORGANIZATION" => .IfcOrganization
    | "IFCAPPLICATION" => .IfcApplication
    | _ => .Unknown (simple_hash s)
  some t

/-! ## parser.rs : tokens and the tokenizer -/

/-- STEP/IFC Token (parser.rs).  String and Enum carry the borrowed slice
between the delimiters, with no unescaping: a doubled quote stays doubled,
and the dots around an enum are stripped, as in the source. -/
inductive Tok where
  | EntityRef (id : Nat)
  | String (s : List Char)
  | Integer (i : Int)
  | Float (f : ℚ)
  | Enum (s : List Char)
  | List (items : List Tok)
  | TypedValue (name : List Char) (args : List Tok)
  | Null
  | Derived
  deriving Repr

/-- Whitespace skipper ws (parser.rs). -/
def ifc_ws (s : List Char) : List Char := s.dropWhile (fun c => c.isWhitespace)

/-- digit1 of nom: one or more ASCII digits, returning (rest, digits). -/
def digit1 (s : List Char) : Option (List Char × List Char) :=
  let ds := s.takeWhile (fun c => c.isDigit)
  if ds.isEmpty then none else some (s.dropWhile (fun c => c.isDigit), ds)

/-- entity_ref (parser.rs): a hash sign followed by digits parsed as u32;
overflow fails the parser, as str::parse::<u32> does under map_res. -/
def entity_ref (s : List Char) : Option (List Char × Tok) :=
  match s with
  | c :: s1 =>
    if c = '#' then
      match digit1 s1 with
      | some (rest, ds) =>
        match parse_u32_checked ds with
        | some id => some (rest, .EntityRef id)
        | none => none
      | none => none
    else none
  | [] => none

/-- parse_string_content (parser.rs): scan to the closing quote, skipping
doubled quotes; returns (remaining input starting at the closing quote,
content).  None when the buffer ends before a closing quote. -/
def string_content (q : Char) : List Char → Option (List Char × List Char)
  | [] => none
  | [c] => if c = q then some ([c], []) else none
  | c :: c2 :: rest =>
    if c = q then
      if c2 = q then (string_content q rest).map (fun p => (p.1, c :: c2 :: p.2))
      else some (c :: c2 :: rest, [])
    else (string_content q (c2 :: rest)).map (fun p => (p.1, c :: p.2))

/-- string_literal (parser.rs): single- or double-quoted string. -/
def string_literal (s : List Char) : Option (List Char × Tok) :=
  match s with
  | c :: s1 =>
    if c = '\x27' ∨ c = '"' then
      match string_content c s1 with
      | some (rem, content) =>
        match rem with
        | _ :: rem2 => some (rem2, .String content)
        | [] => none
      | none => none
    else none
  | [] => none

/-- integer (parser.rs): optional minus sign, digits, parsed as i64 by
lexical_core; out-of-range values fail. -/
def ifc_integer (s : List Char) : Option (List Char × Tok) :=
  let (neg, s1) := match s with
    | c :: rest => if c = '-' then (true, rest) else (false, s)
    | [] => (false, s)
  match digit1 s1 with
  | some (rest, ds) =>
    let v : Int := if neg then -(dec_digits_val ds : Int) else (dec_digits_val ds : Int)
    if -(2 ^ 63) ≤ v ∧ v < 2 ^ 63 then some (rest, .Integer v) else none
  | none => none

/-- float (parser.rs): sign? digits dot digits? exponent?, with the value
modelled as the exact rational the literal denotes. -/
def ifc_float (s : List Char) : Option (List Char × Tok) :=
  let (neg, s1) := match s with
    | c :: rest => if c = '-' then (true, rest) else (false, s)
    | [] => (false, s)
  match digit1 s1 with
  | none => none
  | some (s2, intDs) =>
    match s2 with
    | c :: s3 =>
      if c = '.' then
        let fracDs := s3.takeWhile (fun ch => ch.isDigit)
        let s4 := s3.dropWhile (fun ch => ch.isDigit)
        let base : ℚ := (dec_digits_val intDs : ℚ)
          + (dec_digits_val fracDs : ℚ) / ((10 : ℚ) ^ fracDs.length)
        let expPart : Option (List Char × Int) :=
          match s4 with
          | e :: s5 =>
            if e = 'e' ∨ e = 'E' then
              let (eneg, s6) := match s5 with
                | c2 :: rest2 =>
                  if c2 = '-' then (true, rest2)
                  else if c2 = '+' then (false, rest2) else (false, s5)
                | [] => (false, s5)
              match digit1 s6 with
              | some (s7, eds) =>
                let ev : Int := (dec_digits_val eds : Int)
                some (s7, if eneg then -ev else ev)
              | none => none
            else none
          | [] => none
        let (rest, scaled) : List Char × ℚ :=
          match expPart with
          | some (s7, ev) => (s7, base * (10 : ℚ) ^ ev)
          | none => (s4, base)
        some (rest, .Float (if neg then -scaled else scaled))
      else none
    | [] => none

/-- Character class of enum and type names: alphanumeric or underscore. -/
def is_name_char (c : Char) : Bool := c.isAlphanum ∨ c = '_'

/-- enum_value (parser.rs): a dot, one or more name characters, a dot; the
token carries the slice between the dots — the dots are stripped. -/
def enum_value (s : List Char) : Option (List Char × Tok) :=
  match s with
  | c :: s1 =>
    if c = '.' then
      let name := s1.takeWhile is_name_char
      if name.isEmpty then none
      else
        match s1.dropWhile is_name_char with
        | c2 :: rest => if c2 = '.' then some (rest, .Enum name) else none
        | [] => none
    else none
  | [] => none

/-- null (parser.rs). -/
def ifc_null (s : List Char) : Option (List Char × Tok) :=
  match s with
  | c :: rest => if c = '$' then some (rest, .Null) else none
  | [] => none

/-- derived (parser.rs). -/
def ifc_derived (s : List Char) : Option (List Char × Tok) :=
  match s with
  | c :: rest => if c = '*' then some (rest, .Derived) else none
  | [] => none

mutual

/-- token (parser.rs): whitespace, then the alternatives in source order
(float before integer, then entity_ref, string, enum, list, typed value,
null, derived), then whitespace.  Fuel bounds the recursion depth; every
recursive descent first consumes at least one character, so input length
plus one is always enough fuel. -/
def tokenF : Nat → List Char → Option (List Char × Tok)
  | 0, _ => none
  | fuel + 1, s =>
    let s1 := ifc_ws s
    let core :=
      match ifc_float s1 with
      | some r => some r
      | none =>
      match ifc_integer s1 with
      | some r => some r
      | none =>
      match entity_ref s1 with
      | some r => some r
      | none =>
      match string_literal s1 with
      | some r => some r
      | none =>
      match enum_value s1 with
      | some r => some r
      | none =>
      match listF fuel s1 with
      | some r => some r
      | none =>
      match typed_valueF fuel s1 with
      | some r => some r
      | none =>
      match ifc_null s1 with
      | some r => some r
      | none => ifc_derived s1
    match core with
    | some (rest, t) => some (ifc_ws rest, t)
    | none => none

/-- list (parser.rs): parenthesized, comma-separated tokens. -/
def listF : Nat → List Char → Option (List Char × Tok)
  | 0, _ => none
  | fuel + 1, s =>
    match s with
    | c :: s1 =>
      if c = '(' then
        let (s2, items) := sep_list0 fuel s1
        match s2 with
        | c2 :: rest => if c2 = ')' then some (rest, .List items) else none
        | [] => none
      else none
    | [] => none

/-- typed_value (parser.rs): a name followed by a parenthesized argument
list, such as IFCPARAMETERVALUE(0.). -/
def typed_valueF : Nat → List Char → Option (List Char × Tok)
  | 0, _ => none
  | fuel + 1, s =>
    let name := s.takeWhile is_name_char
    if name.isEmpty then none
    else
      match s.dropWhile is_name_char with
      | c :: s1 =>
        if c = '(' then
          let (s2, args) := sep_list0 fuel s1
          match s2 with
          | c2 :: rest => if c2 = ')' then some (rest, .TypedValue name args) else none
          | [] => none
        else none
      | [] => none

/-- separated_list0 of nom with separator ws-comma-ws: never fails; on a
failing element parse it returns what was accumulated, with the input
positioned before the unconsumed separator. -/
def sep_list0 : Nat → List Char → List Char × List Tok
  | 0, s => (s, [])
  | fuel + 1, s =>
    match tokenF fuel s with
    | none => (s, [])
    | some (rest, t) => sep_tail fuel rest [t]

/-- The accumulation loop of separated_list0. -/
def sep_tail : Nat → List Char → List Tok → List Char × List Tok
  | 0, s, acc => (s, acc)
  | fuel + 1, s, acc =>
    match ifc_ws s with
    | c :: s2 =>
      if c = ',' then
        match tokenF fuel (ifc_ws s2) with
        | some (rest, t) => sep_tail fuel rest (acc ++ [t])
        | none => (s, acc)
      else (s, acc)
    | [] => (s, acc)

end

/-- parse_entity (parser.rs): hash, id (checked u32), equals, type name,
parenthesized arguments, semicolon; trailing input after the semicolon is
ignored by the source (the nom consumer discards the rest).  None models
the structured parse error. -/
def parse_entity (input : List Char) : Option (Nat × IfcType × List Tok) :=
  match ifc_ws input with
  | c :: s1 =>
    if c = '#' then
      match digit1 s1 with
      | none => none
      | some (s2, ds) =>
        match parse_u32_checked ds with
        | none => none
        | some id =>
          match ifc_ws s2 with
          | c2 :: s4 =>
            if c2 = '=' then
              let s5 := ifc_ws s4
              let name := s5.takeWhile is_name_char
              if name.isEmpty then none
              else
                match ifc_ws (s5.dropWhile is_name_char) with
                | c3 :: s7 =>
                  if c3 = '(' then
                    let (s8, args) := sep_list0 (s7.length + 1) s7
                    match s8 with
                    | c4 :: s9 =>
                      if c4 = ')' then
                        match ifc_ws s9 with
                        | c5 :: _ =>
                          if c5 = ';' then
                            match IfcType.from_str (String.mk name) with
                            | some t => some (id, t, args)
                            | none => none
                          else none
                        | [] => none
                      else none
                    | [] => none
                  else none
                | [] => none
            else none
          | [] => none
    else none
  | [] => none

/-! ## schema_gen.rs : attribute values and decoded entities -/

/-- IFC entity attribute value (schema_gen.rs).  Owns its strings; the
TypedValue token is stored as a list whose first element is the type name,
exactly as AttributeValue::from_token does.  The constructors Str and Lst
mirror String and List of the source; they are renamed only because those
identifiers denote the Lean core types inside this namespace. -/
inductive AttributeValue where
  | EntityRef (id : Nat)
  | Str (s : String)
  | Integer (i : Int)
  | Float (f : ℚ)
  | Enum (e : String)
  | Lst (items : List AttributeValue)
  | Null
  | Derived

mutual

/-- AttributeValue::from_token (schema_gen.rs). -/
def AttributeValue.from_token : Tok → AttributeValue
  | .EntityRef id => .EntityRef id
  | .String s => .Str (String.mk s)
  | .Integer i => .Integer i
  | .Float f => .Float f
  | .Enum e => .Enum (String.mk e)
  | .List items => .Lst (AttributeValue.from_token_list items)
  | .TypedValue name args =>
    .Lst (.Str (String.mk name) :: AttributeValue.from_token_list args)
  | .Null => .Null
  | .Derived => .Derived

/-- Mapping from_token over a token list (iter().map().collect()). -/
def AttributeValue.from_token_list : List Tok → List AttributeValue
  | [] => []
  | t :: ts => AttributeValue.from_token t :: AttributeValue.from_token_list ts

end

/-- AttributeValue::as_entity_ref (schema_gen.rs). -/
def AttributeValue.as_entity_ref : AttributeValue → Option Nat
  | .EntityRef id => some id
  | _ => none

/-- AttributeValue::as_string (schema_gen.rs). -/
def AttributeValue.as_string : AttributeValue → Option String
  | .Str s => some s
  | _ => none

/-- AttributeValue::as_float (schema_gen.rs): floats directly, integers
through a cast. -/
def AttributeValue.as_float : AttributeValue → Option ℚ
  | .Float f => some f
  | .Integer i => some (i : ℚ)
  | _ => none

/-- AttributeValue::as_list (schema_gen.rs). -/
def AttributeValue.as_list : AttributeValue → Option (List AttributeValue)
  | .Lst items => some items
  | _ => none

/-- AttributeValue::is_null (schema_gen.rs): true for Null and Derived. -/
def AttributeValue.is_null : AttributeValue → Bool
  | .Null => true
  | .Derived => true
  | _ => false

/-- Decoded IFC entity with positional attributes (schema_gen.rs). -/
structure DecodedEntity where
  id : Nat
  ifc_type : IfcType
  attributes : List AttributeValue

/-- DecodedEntity::get (schema_gen.rs): positional attribute access. -/
def DecodedEntity.get (e : DecodedEntity) (index : Nat) : Option AttributeValue :=
  e.attributes.get? index

/-- DecodedEntity::get_ref (schema_gen.rs). -/
def DecodedEntity.get_ref (e : DecodedEntity) (index : Nat) : Option Nat :=
  (e.get index).bind AttributeValue.as_entity_ref

/-- DecodedEntity::get_float (schema_gen.rs). -/
def DecodedEntity.get_float (e : DecodedEntity) (index : Nat) : Option ℚ :=
  (e.get index).bind AttributeValue.as_float

/-- DecodedEntity::get_list (schema_gen.rs). -/
def DecodedEntity.get_list (e : DecodedEntity) (index : Nat) : Option (List AttributeValue) :=
  (e.get index).bind AttributeValue.as_list

/-- Geometry representation category (schema_gen.rs). -/
inductive GeometryCategory where
  | SweptSolid
  | Boolean
  | ExplicitMesh
  | MappedItem
  | Other

/-- Profile category (schema_gen.rs). -/
inductive ProfileCategory where
  | Parametric
  | Arbitrary
  | Composite
  | Other

/-- IfcSchema::geometry_category: lookup in the map populated by
IfcSchema::new (schema_gen.rs). -/
def geometry_category : IfcType → Option GeometryCategory
  | .IfcExtrudedAreaSolid => some .SweptSolid
  | .IfcRevolvedAreaSolid => some .SweptSolid
  | .IfcBooleanResult => some .Boolean
  | .IfcBooleanClippingResult => some .Boolean
  | .IfcFacetedBrep => some .ExplicitMesh
  | .IfcTriangulatedFaceSet => some .ExplicitMesh
  | .IfcPolygonalFaceSet => some .ExplicitMesh
  | .IfcMappedItem => some .MappedItem
  | _ => none

/-- IfcSchema::profile_category: lookup in the map populated by
IfcSchema::new (schema_gen.rs). -/
def profile_category : IfcType → Option ProfileCategory
  | .IfcRectangleProfileDef => some .Parametric
  | .IfcCircleProfileDef => some .Parametric
  | .IfcCircleHollowProfileDef => some .Parametric
  | .IfcIShapeProfileDef => some .Parametric
  | .IfcLShapeProfileDef => some .Parametric
  | .IfcUShapeProfileDef => some .Parametric
  | .IfcTShapeProfileDef => some .Parametric
  | .IfcCShapeProfileDef => some .Parametric
  | .IfcZShapeProfileDef => some .Parametric
  | .IfcArbitraryClosedProfileDef => some .Arbitrary
  | .IfcArbitraryProfileDefWithVoids => some .Arbitrary
  | .IfcCompositeProfileDef => some .Composite
  | _ => none

/-! ## decoder.rs : entity index and lazy decoder -/

/-- memchr on the suffix starting at pos, returning the absolute index of
the first occurrence of c at or after pos. -/
def find_char_from? (content : List Char) (c : Char) (pos : Nat) : Option Nat :=
  ((content.drop pos).findIdx? (fun x => x = c)).map (fun k => pos + k)

/-- memchr restricted to the half-open range of positions from s to e. -/
def find_char_in_range? (content : List Char) (c : Char) (s e : Nat) : Option Nat :=
  (((content.drop s).take (e - s)).findIdx? (fun x => x = c)).map (fun k => s + k)

/-- End position of the ASCII digit run starting at pos (bounded by the end
of the buffer, as in the while loop of build_entity_index). -/
def digit_run_end (content : List Char) (pos : Nat) : Nat :=
  pos + ((content.drop pos).takeWhile (fun c => c.isDigit)).length

/-- Character at an absolute position. -/
def char_at? (content : List Char) (i : Nat) : Option Char :=
  content.get? i

/-- parse_u32_inline (decoder.rs): wrapping u32 accumulation over the byte
range, with the digit byte obtained by a wrapping subtraction of 48.  No
overflow or digit check whatsoever — values of 2^32 or more silently wrap. -/
def parse_u32_inline (content : List Char) (start stop : Nat) : Nat :=
  ((content.drop start).take (stop - start)).foldl
    (fun r c => (r * 10 % 4294967296 + (c.toNat % 256 + 208) % 256) % 4294967296) 0

/-- The loop of build_entity_index (decoder.rs), returning the hash-map
insertions in order: (id, start, one past the semicolon).  The cursor
strictly advances every iteration, so fuel equal to the buffer length plus
one never runs out. -/
def build_entity_index_loop (content : List Char) (len : Nat) : Nat → Nat → List (Nat × Nat × Nat)
  | _, 0 => []
  | pos, fuel + 1 =>
    if pos < len then
      match find_char_from? content '#' pos with
      | none => []
      | some start =>
        let idStart := start + 1
        let idEnd := digit_run_end content idStart
        if idEnd > idStart ∧ idEnd < len ∧ char_at? content idEnd = some '=' then
          let id := parse_u32_inline content idStart idEnd
          match find_char_from? content ';' idEnd with
          | some semi => (id, start, semi + 1) :: build_entity_index_loop content len (semi + 1) fuel
          | none => []
        else build_entity_index_loop content len idEnd fuel
    else []

/-- build_entity_index (decoder.rs): one linear scan mapping entity ids to
byte ranges.  Modelled as the ordered list of insertions; a later insertion
of the same id overwrites an earlier one, which index_get reproduces by
scanning from the most recent insertion. -/
def build_entity_index (content : List Char) : List (Nat × Nat × Nat) :=
  build_entity_index_loop content content.length 0 (content.length + 1)

/-- Lookup in the entity index with last-insertion-wins semantics. -/
def index_get (idx : List (Nat × Nat × Nat)) (id : Nat) : Option (Nat × Nat) :=
  (idx.reverse.find? (fun t => t.1 = id)).map (fun t => t.2)

/-- Lookup in the decode cache; insertions prepend, so the first match is
the current binding, as in FxHashMap. -/
def cache_get (cache : List (Nat × DecodedEntity)) (id : Nat) : Option DecodedEntity :=
  (cache.find? (fun p => p.1 = id)).map (fun p => p.2)

/-- EntityDecoder (decoder.rs): borrowed content, decode cache, optional
pre-built entity index. -/
structure EntityDecoder where
  content : List Char
  cache : List (Nat × DecodedEntity)
  entity_index : Option (List (Nat × Nat × Nat))

/-- EntityDecoder::new (decoder.rs). -/
def EntityDecoder.new (content : List Char) : EntityDecoder :=
  ⟨content, [], none⟩

/-- State-and-error monad threading the decoder, modelling &mut EntityDecoder
plus Result. -/
def DecM (α : Type) : Type := EntityDecoder → Except String α × EntityDecoder

instance : Monad DecM where
  pure a := fun st => (Except.ok a, st)
  bind x f := fun st =>
    match x st with
    | (Except.ok a, st1) => f a st1
    | (Except.error e, st1) => (Except.error e, st1)

/-- Raising an Error (decoder.rs / geometry error.rs); message text is
abridged, no theorem compares it. -/
def decThrow {α : Type} (msg : String) : DecM α := fun st => (Except.error msg, st)

/-- EntityDecoder::build_index (decoder.rs): builds the entity index if it
is not already present. -/
def EntityDecoder.build_index (st : EntityDecoder) : EntityDecoder :=
  match st.entity_index with
  | some _ => st
  | none => { st with entity_index := some (build_entity_index st.content) }

/-- EntityDecoder::decode_at (decoder.rs): parse the slice, then return the
cached entity for the parsed id if one exists, otherwise convert the tokens
and populate the cache.  Note the order: the parse happens before the cache
lookup, and the cache is keyed by the id parsed out of the slice. -/
def decode_at (start stop : Nat) : DecM DecodedEntity := fun st =>
  match parse_entity ((st.content.drop start).take (stop - start)) with
  | none => (Except.error "Failed to parse entity", st)
  | some (id, t, toks) =>
    match cache_get st.cache id with
    | some e => (Except.ok e, st)
    | none =>
      let e : DecodedEntity := ⟨id, t, AttributeValue.from_token_list toks⟩
      (Except.ok e, { st with cache := (id, e) :: st.cache })

/-- EntityDecoder::decode_by_id (decoder.rs): cache first, then ensure the
index, then decode the indexed range. -/
def decode_by_id (entity_id : Nat) : DecM DecodedEntity := fun st =>
  match cache_get st.cache entity_id with
  | some e => (Except.ok e, st)
  | none =>
    let st1 := st.build_index
    match index_get (st1.entity_index.getD []) entity_id with
    | none => (Except.error "Entity not found", st1)
    | some (s, e) => decode_at s e st1

/-- EntityDecoder::resolve_ref (decoder.rs): follow an EntityRef; every
non-ref attribute, of any shape, yields Ok(None). -/
def resolve_ref (attr : AttributeValue) : DecM (Option DecodedEntity) := fun st =>
  match attr.as_entity_ref with
  | some id =>
    match decode_by_id id st with
    | (Except.ok e, st1) => (Except.ok (some e), st1)
    | (Except.error m, st1) => (Except.error m, st1)
  | none => (Except.ok none, st)

/-- The collection loop of resolve_ref_list (decoder.rs): decode each
entity-ref child in order, skipping non-refs. -/
def resolve_ref_list_loop : List AttributeValue → DecM (List DecodedEntity)
  | [] => fun st => (Except.ok [], st)
  | item :: rest => fun st =>
    match item.as_entity_ref with
    | none => resolve_ref_list_loop rest st
    | some id =>
      match decode_by_id id st with
      | (Except.error m, st1) => (Except.error m, st1)
      | (Except.ok e, st1) =>
        match resolve_ref_list_loop rest st1 with
        | (Except.ok es, st2) => (Except.ok (e :: es), st2)
        | (Except.error m, st2) => (Except.error m, st2)

/-- EntityDecoder::resolve_ref_list (decoder.rs): requires a list attribute. -/
def resolve_ref_list (attr : AttributeValue) : DecM (List DecodedEntity) := fun st =>
  match attr.as_list with
  | none => (Except.error "Expected list", st)
  | some items => resolve_ref_list_loop items st

/-! ## parser.rs : EntityScanner -/

/-- u8::is_ascii_whitespace. -/
def is_ascii_ws (c : Char) : Bool :=
  c = ' ' ∨ c = '\t' ∨ c = '\n' ∨ c = '\x0c' ∨ c = '\r'

/-- End of the digit run starting at s, bounded by e (the while loop over
id digits in EntityScanner::next_entity). -/
def digit_run_end_bounded (content : List Char) (s e : Nat) : Nat :=
  s + (((content.drop s).take (e - s)).takeWhile (fun c => c.isDigit)).length

/-- EntityScanner::parse_u32_fast (parser.rs): wrapping accumulation that
fails on any non-digit byte in the range; an empty range yields 0. -/
def parse_u32_fast (content : List Char) (start stop : Nat) : Option Nat :=
  ((content.drop start).take (stop - start)).foldl
    (fun acc c =>
      acc.bind (fun r =>
        let d := (c.toNat % 256 + 208) % 256
        if d > 9 then none
        else some ((r * 10 % 4294967296 + d) % 4294967296)))
    (some 0)

/-- Position after skipping ASCII whitespace, bounded by e. -/
def skip_ws_bounded (content : List Char) (s e : Nat) : Nat :=
  s + (((content.drop s).take (e - s)).takeWhile is_ascii_ws).length

/-- End of the type name: scan until an opening parenthesis or whitespace,
bounded by the line end. -/
def type_name_end (content : List Char) (s e : Nat) : Nat :=
  s + (((content.drop s).take (e - s)).takeWhile
    (fun c => ¬(c = '(' ∨ is_ascii_ws c))).length

/-- EntityScanner::next_entity (parser.rs): find the next hash sign, locate
the terminating semicolon, parse the id, find the equals sign, extract the
type-name slice.  Every failure path returns None: the scanner terminates
gracefully rather than panicking.  The returned tuple is
(id, type_name, line_start, line_end); the successor scanner position is
line_end. -/
def next_entity (bytes : List Char) (position : Nat) : Option (Nat × List Char × Nat × Nat) :=
  match find_char_from? bytes '#' position with
  | none => none
  | some lineStart =>
    match find_char_from? bytes ';' lineStart with
    | none => none
    | some semiAbs =>
      let lineEnd := semiAbs + 1
      let idStart := lineStart + 1
      let idEnd := digit_run_end_bounded bytes idStart lineEnd
      match parse_u32_fast bytes idStart idEnd with
      | none => none
      | some id =>
        match find_char_in_range? bytes '=' idEnd lineEnd with
        | none => none
        | some eqAbs =>
          let tyStart := skip_ws_bounded bytes (eqAbs + 1) lineEnd
          let tyEnd := type_name_end bytes tyStart lineEnd
          some (id, (bytes.drop tyStart).take (tyEnd - tyStart), lineStart, lineEnd)


/-! ## Geometry primitives: vectors and matrices

nalgebra's Point2 / Point3 / Vector3 / Matrix4 are modelled over exact
rationals.  Transcendental functions appear only through explicit function
parameters: cosT and sinT stand for cosine and sine of a full-turn fraction
(cosT t models cos of two-pi-times-t), so that the angle arguments the code
computes stay exact rationals; no verified claim depends on their values. -/

/-- 2D point over exact rationals. -/
structure V2 where
  x : ℚ
  y : ℚ
  deriving DecidableEq

/-- 3D point / vector over exact rationals. -/
structure V3 where
  x : ℚ
  y : ℚ
  z : ℚ
  deriving DecidableEq

/-- 3-by-3 rational matrix. -/
abbrev Mat3 := Matrix (Fin 3) (Fin 3) ℚ

/-- 4-by-4 rational matrix. -/
abbrev Mat4 := Matrix (Fin 4) (Fin 4) ℚ

/-- Cross product (nalgebra Vector3::cross). -/
def cross3 (a b : V3) : V3 :=
  ⟨a.y * b.z - a.z * b.y, a.z * b.x - a.x * b.z, a.x * b.y - a.y * b.x⟩

/-- Dot product. -/
def dot3 (a b : V3) : ℚ := a.x * b.x + a.y * b.y + a.z * b.z

/-- nalgebra normalize: divide by the euclidean norm, modelled through
rat_sqrt.  Division by a zero norm yields the zero vector (the rational
stand-in for the NaN components the source would produce; no verified claim
inspects such a vector). -/
def normalizeV (v : V3) : V3 :=
  let n := rat_sqrt (v.x * v.x + v.y * v.y + v.z * v.z)
  ⟨v.x / n, v.y / n, v.z / n⟩

/-- Matrix4::new_translation. -/
def new_translation (v : V3) : Mat4 :=
  Matrix.of !![1, 0, 0, v.x; 0, 1, 0, v.y; 0, 0, 1, v.z; 0, 0, 0, 1]

/-- Matrix4::transform_point: homogeneous transform with the perspective
divide nalgebra performs. -/
def transform_point (M : Mat4) (p : V3) : V3 :=
  let x := M 0 0 * p.x + M 0 1 * p.y + M 0 2 * p.z + M 0 3
  let y := M 1 0 * p.x + M 1 1 * p.y + M 1 2 * p.z + M 1 3
  let z := M 2 0 * p.x + M 2 1 * p.y + M 2 2 * p.z + M 2 3
  let w := M 3 0 * p.x + M 3 1 * p.y + M 3 2 * p.z + M 3 3
  ⟨x / w, y / w, z / w⟩

/-- Determinant of a 3-by-3 matrix by the explicit rule nalgebra uses. -/
def m3det (M : Mat3) : ℚ :=
  M 0 0 * (M 1 1 * M 2 2 - M 1 2 * M 2 1)
    - M 0 1 * (M 1 0 * M 2 2 - M 1 2 * M 2 0)
    + M 0 2 * (M 1 0 * M 2 1 - M 1 1 * M 2 0)

/-- Explicit adjugate of a 3-by-3 matrix. -/
def m3adjugate (M : Mat3) : Mat3 :=
  Matrix.of
    !![M 1 1 * M 2 2 - M 1 2 * M 2 1, M 0 2 * M 2 1 - M 0 1 * M 2 2, M 0 1 * M 1 2 - M 0 2 * M 1 1;
       M 1 2 * M 2 0 - M 1 0 * M 2 2, M 0 0 * M 2 2 - M 0 2 * M 2 0, M 0 2 * M 1 0 - M 0 0 * M 1 2;
       M 1 0 * M 2 1 - M 1 1 * M 2 0, M 0 1 * M 2 0 - M 0 0 * M 2 1, M 0 0 * M 1 1 - M 0 1 * M 1 0]

/-- try_inverse().unwrap_or(original) on a 3-by-3 matrix: the inverse when
the determinant is nonzero, the matrix itself otherwise. -/
def m3_try_inverse_or (M : Mat3) : Mat3 :=
  if m3det M = 0 then M else (m3det M)⁻¹ • m3adjugate M

/-- Determinant of a 4-by-4 matrix by first-row cofactor expansion. -/
def m4det (M : Mat4) : ℚ :=
  M 0 0 * (M 1 1 * (M 2 2 * M 3 3 - M 2 3 * M 3 2)
      - M 1 2 * (M 2 1 * M 3 3 - M 2 3 * M 3 1)
      + M 1 3 * (M 2 1 * M 3 2 - M 2 2 * M 3 1))
    - M 0 1 * (M 1 0 * (M 2 2 * M 3 3 - M 2 3 * M 3 2)
      - M 1 2 * (M 2 0 * M 3 3 - M 2 3 * M 3 0)
      + M 1 3 * (M 2 0 * M 3 2 - M 2 2 * M 3 0))
    + M 0 2 * (M 1 0 * (M 2 1 * M 3 3 - M 2 3 * M 3 1)
      - M 1 1 * (M 2 0 * M 3 3 - M 2 3 * M 3 0)
      + M 1 3 * (M 2 0 * M 3 1 - M 2 1 * M 3 0))
    - M 0 3 * (M 1 0 * (M 2 1 * M 3 2 - M 2 2 * M 3 1)
      - M 1 1 * (M 2 0 * M 3 2 - M 2 2 * M 3 0)
      + M 1 2 * (M 2 0 * M 3 1 - M 2 1 * M 3 0))

/-- Explicit adjugate of a 4-by-4 matrix (the cofactor formula nalgebra's
try_inverse evaluates). -/
def m4adjugate (M : Mat4) : Mat4 :=
  Matrix.of
    !![(M 1 1 * (M 2 2 * M 3 3 - M 2 3 * M 3 2) - M 1 2 * (M 2 1 * M 3 3 - M 2 3 * M 3 1) + M 1 3 * (M 2 1 * M 3 2 - M 2 2 * M 3 1)),
      -(M 0 1 * (M 2 2 * M 3 3 - M 2 3 * M 3 2) - M 0 2 * (M 2 1 * M 3 3 - M 2 3 * M 3 1) + M 0 3 * (M 2 1 * M 3 2 - M 2 2 * M 3 1)),
      (M 0 1 * (M 1 2 * M 3 3 - M 1 3 * M 3 2) - M 0 2 * (M 1 1 * M 3 3 - M 1 3 * M 3 1) + M 0 3 * (M 1 1 * M 3 2 - M 1 2 * M 3 1)),
      -(M 0 1 * (M 1 2 * M 2 3 - M 1 3 * M 2 2) - M 0 2 * (M 1 1 * M 2 3 - M 1 3 * M 2 1) + M 0 3 * (M 1 1 * M 2 2 - M 1 2 * M 2 1));
      -(M 1 0 * (M 2 2 * M 3 3 - M 2 3 * M 3 2) - M 1 2 * (M 2 0 * M 3 3 - M 2 3 * M 3 0) + M 1 3 * (M 2 0 * M 3 2 - M 2 2 * M 3 0)),
      (M 0 0 * (M 2 2 * M 3 3 - M 2 3 * M 3 2) - M 0 2 * (M 2 0 * M 3 3 - M 2 3 * M 3 0) + M 0 3 * (M 2 0 * M 3 2 - M 2 2 * M 3 0)),
      -(M 0 0 * (M 1 2 * M 3 3 - M 1 3 * M 3 2) - M 0 2 * (M 1 0 * M 3 3 - M 1 3 * M 3 0) + M 0 3 * (M 1 0 * M 3 2 - M 1 2 * M 3 0)),
      (M 0 0 * (M 1 2 * M 2 3 - M 1 3 * M 2 2) - M 0 2 * (M 1 0 * M 2 3 - M 1 3 * M 2 0) + M 0 3 * (M 1 0 * M 2 2 - M 1 2 * M 2 0));
      (M 1 0 * (M 2 1 * M 3 3 - M 2 3 * M 3 1) - M 1 1 * (M 2 0 * M 3 3 - M 2 3 * M 3 0) + M 1 3 * (M 2 0 * M 3 1 - M 2 1 * M 3 0)),
      -(M 0 0 * (M 2 1 * M 3 3 - M 2 3 * M 3 1) - M 0 1 * (M 2 0 * M 3 3 - M 2 3 * M 3 0) + M 0 3 * (M 2 0 * M 3 1 - M 2 1 * M 3 0)),
      (M 0 0 * (M 1 1 * M 3 3 - M 1 3 * M 3 1) - M 0 1 * (M 1 0 * M 3 3 - M 1 3 * M 3 0) + M 0 3 * (M 1 0 * M 3 1 - M 1 1 * M 3 0)),
      -(M 0 0 * (M 1 1 * M 2 3 - M 1 3 * M 2 1) - M 0 1 * (M 1 0 * M 2 3 - M 1 3 * M 2 0) + M 0 3 * (M 1 0 * M 2 1 - M 1 1 * M 2 0));
      -(M 1 0 * (M 2 1 * M 3 2 - M 2 2 * M 3 1) - M 1 1 * (M 2 0 * M 3 2 - M 2 2 * M 3 0) + M 1 2 * (M 2 0 * M 3 1 - M 2 1 * M 3 0)),
      (M 0 0 * (M 2 1 * M 3 2 - M 2 2 * M 3 1) - M 0 1 * (M 2 0 * M 3 2 - M 2 2 * M 3 0) + M 0 2 * (M 2 0 * M 3 1 - M 2 1 * M 3 0)),
      -(M 0 0 * (M 1 1 * M 3 2 - M 1 2 * M 3 1) - M 0 1 * (M 1 0 * M 3 2 - M 1 2 * M 3 0) + M 0 2 * (M 1 0 * M 3 1 - M 1 1 * M 3 0)),
      (M 0 0 * (M 1 1 * M 2 2 - M 1 2 * M 2 1) - M 0 1 * (M 1 0 * M 2 2 - M 1 2 * M 2 0) + M 0 2 * (M 1 0 * M 2 1 - M 1 1 * M 2 0))]

/-- try_inverse().unwrap_or(original) on a 4-by-4 matrix, as apply_transform
(extrusion.rs) computes it: the inverse when the determinant is nonzero, the
original matrix otherwise. -/
def m4_try_inverse_or (M : Mat4) : Mat4 :=
  if m4det M = 0 then M else (m4det M)⁻¹ • m4adjugate M

/-- The upper-left 3-by-3 block of a 4-by-4 matrix
(transform.fixed_view::<3,3>(0,0) in router.rs). -/
def upper_left (M : Mat4) : Mat3 :=
  Matrix.of fun i j => M i.castSucc j.castSucc

/-- 3-by-3 matrix times vector. -/
def mulVec3 (A : Mat3) (v : V3) : V3 :=
  ⟨A 0 0 * v.x + A 0 1 * v.y + A 0 2 * v.z,
   A 1 0 * v.x + A 1 1 * v.y + A 1 2 * v.z,
   A 2 0 * v.x + A 2 1 * v.y + A 2 2 * v.z⟩

/-! ## mesh.rs : the triangle mesh -/

/-- Triangle mesh (mesh.rs): flat position, normal and index arrays. -/
structure Mesh where
  positions : List ℚ
  normals : List ℚ
  indices : List Nat

/-- Mesh::new (mesh.rs). -/
def Mesh.new : Mesh := ⟨[], [], []⟩

/-- Mesh::with_capacity (mesh.rs): the capacity hint has no observable
effect, so this is Mesh::new. -/
def Mesh.with_capacity (_vertex_count _index_count : Nat) : Mesh := Mesh.new

/-- Mesh::add_vertex (mesh.rs): push the three position components and the
three normal components. -/
def Mesh.add_vertex (m : Mesh) (position : V3) (normal : V3) : Mesh :=
  { m with
    positions := m.positions ++ [position.x, position.y, position.z],
    normals := m.normals ++ [normal.x, normal.y, normal.z] }

/-- Mesh::add_triangle (mesh.rs). -/
def Mesh.add_triangle (m : Mesh) (i0 i1 i2 : Nat) : Mesh :=
  { m with indices := m.indices ++ [i0, i1, i2] }

/-- Mesh::vertex_count (mesh.rs). -/
def Mesh.vertex_count (m : Mesh) : Nat := m.positions.length / 3

/-- Mesh::triangle_count (mesh.rs). -/
def Mesh.triangle_count (m : Mesh) : Nat := m.indices.length / 3

/-- Mesh::is_empty (mesh.rs). -/
def Mesh.is_empty (m : Mesh) : Bool := m.positions.isEmpty

/-- Mesh::merge (mesh.rs): append the other mesh, rebasing its indices by
this mesh's vertex count taken before the append. -/
def Mesh.merge (m other : Mesh) : Mesh :=
  let vertex_offset := m.positions.length / 3
  { positions := m.positions ++ other.positions,
    normals := m.normals ++ other.normals,
    indices := m.indices ++ other.indices.map (fun i => i + vertex_offset) }

/-- Mesh::merge_all (mesh.rs): fold of the merge step over the list,
skipping empty meshes; the reserve calls have no observable effect. -/
def Mesh.merge_all (m : Mesh) (meshes : List Mesh) : Mesh :=
  meshes.foldl
    (fun acc mesh =>
      if mesh.is_empty then acc
      else
        let vertex_offset := acc.positions.length / 3
        { positions := acc.positions ++ mesh.positions,
          normals := acc.normals ++ mesh.normals,
          indices := acc.indices ++ mesh.indices.map (fun i => i + vertex_offset) })
    m

/-- The exact value of f32::MAX; the bounds fold starts at (MAX, MAX, MAX)
and (MIN, MIN, MIN) exactly as the source does. -/
def f32_max : ℚ := 340282346638528859811704183484516925440

/-- The accumulation loop of Mesh::bounds (mesh.rs), reading the positions
three at a time. -/
def bounds_loop : List ℚ → V3 → V3 → V3 × V3
  | x :: y :: z :: rest, mn, mx =>
    bounds_loop rest
      ⟨min mn.x x, min mn.y y, min mn.z z⟩
      ⟨max mx.x x, max mx.y y, max mx.z z⟩
  | _, mn, mx => (mn, mx)

/-- Mesh::bounds (mesh.rs): componentwise min and max over the vertex
positions; the empty mesh yields the origin twice. -/
def Mesh.bounds (m : Mesh) : V3 × V3 :=
  if m.is_empty then (⟨0, 0, 0⟩, ⟨0, 0, 0⟩)
  else bounds_loop m.positions ⟨f32_max, f32_max, f32_max⟩ ⟨-f32_max, -f32_max, -f32_max⟩

/-! ## profile.rs : 2D profiles and their triangulation -/

/-- 2D profile with optional holes (profile.rs). -/
structure Profile2D where
  outer : List V2
  holes : List (List V2)

/-- Profile2D::new (profile.rs). -/
def Profile2D.new (outer : List V2) : Profile2D := ⟨outer, []⟩

/-- Profile2D::add_hole (profile.rs). -/
def Profile2D.add_hole (p : Profile2D) (hole : List V2) : Profile2D :=
  { p with holes := p.holes ++ [hole] }

/-- Triangulated profile result (profile.rs). -/
structure Triangulation where
  points : List V2
  indices : List Nat

/-- Rebuild Point2 values from a flattened vertex array (the final loop of
Profile2D::triangulate). -/
def pairs_to_points : List ℚ → List V2
  | x :: y :: rest => ⟨x, y⟩ :: pairs_to_points rest
  | _ => []

/-- Profile2D::triangulate (profile.rs).  The external earcutr::earcut call
is the explicit parameter earcut, applied to the flattened vertices, the
hole start indices and the dimension 2; theorems below hold for every value
of this parameter, hence for the actual crate. -/
def Profile2D.triangulate (earcut : List ℚ → List Nat → Nat → List Nat)
    (p : Profile2D) : Except String Triangulation :=
  if p.outer.length < 3 then Except.error "Profile must have at least 3 vertices"
  else
    let outerVs : List ℚ := (p.outer.map (fun q => [q.x, q.y])).flatten
    let (vertices, hole_indices) :=
      p.holes.foldl
        (fun (acc : List ℚ × List Nat) hole =>
          (acc.1 ++ (hole.map (fun q => [q.x, q.y])).flatten, acc.2 ++ [acc.1.length / 2]))
        (outerVs, [])
    let indices :=
      if hole_indices.isEmpty then earcut vertices [] 2
      else earcut vertices hole_indices 2
    Except.ok ⟨pairs_to_points vertices, indices⟩

/-! ## extrusion.rs : extrusion of 2D profiles -/

/-- The triangle-emitting loop of create_cap_mesh (extrusion.rs), consuming
the triangulation indices three at a time, with the winding reversed for
the bottom cap (z = 0).  The earcutr crate always returns whole triples;
a ragged tail, which would be an out-of-bounds panic in the source, is
ignored here and never arises in any theorem. -/
def add_cap_triangles : List Nat → Nat → ℚ → Mesh → Mesh
  | i0 :: i1 :: i2 :: rest, base, z, m =>
    let t0 := base + i0
    let t1 := base + i1
    let t2 := base + i2
    let m2 := if z = 0 then m.add_triangle t0 t2 t1 else m.add_triangle t0 t1 t2
    add_cap_triangles rest base z m2
  | _, _, _, m => m

/-- create_cap_mesh (extrusion.rs): add one vertex per triangulation point
at height z with the given cap normal, then the triangles. -/
def create_cap_mesh (tri : Triangulation) (z : ℚ) (normal : V3) (mesh : Mesh) : Mesh :=
  let base_index := mesh.vertex_count
  let mesh1 := tri.points.foldl (fun m p => m.add_vertex ⟨p.x, p.y, z⟩ normal) mesh
  add_cap_triangles tri.indices base_index z mesh1

/-- create_side_walls (extrusion.rs): for each boundary edge, four vertices
of a quad (bottom pair then top pair) with the outward edge normal, and two
triangles. -/
def create_side_walls (boundary : List V2) (depth : ℚ) (mesh : Mesh) : Mesh :=
  let base_index := mesh.vertex_count
  (List.range boundary.length).foldl
    (fun m i =>
      let j := (i + 1) % boundary.length
      let p0 := boundary.getD i ⟨0, 0⟩
      let p1 := boundary.getD j ⟨0, 0⟩
      let edge : V3 := ⟨p1.x - p0.x, p1.y - p0.y, 0⟩
      let normal := normalizeV ⟨-edge.y, edge.x, 0⟩
      let idx := base_index + i * 4
      let m1 := m.add_vertex ⟨p0.x, p0.y, 0⟩ normal
      let m2 := m1.add_vertex ⟨p1.x, p1.y, 0⟩ normal
      let m3 := m2.add_vertex ⟨p1.x, p1.y, depth⟩ normal
      let m4 := m3.add_vertex ⟨p0.x, p0.y, depth⟩ normal
      let m5 := m4.add_triangle idx (idx + 1) (idx + 2)
      m5.add_triangle idx (idx + 2) (idx + 3))
    mesh

/-- The position loop of apply_transform (extrusion.rs), transforming the
flat position array three entries at a time. -/
def transform_positions (M : Mat4) : List ℚ → List ℚ
  | x :: y :: z :: rest =>
    let p := transform_point M ⟨x, y, z⟩
    p.x :: p.y :: p.z :: transform_positions M rest
  | rest => rest

/-- The normal loop of apply_transform (extrusion.rs): multiply by the
already-computed normal matrix (homogeneous with w = 0) and renormalize. -/
def transform_normals_with (NM : Mat4) : List ℚ → List ℚ
  | x :: y :: z :: rest =>
    let rx := NM 0 0 * x + NM 0 1 * y + NM 0 2 * z
    let ry := NM 1 0 * x + NM 1 1 * y + NM 1 2 * z
    let rz := NM 2 0 * x + NM 2 1 * y + NM 2 2 * z
    let n := normalizeV ⟨rx, ry, rz⟩
    n.x :: n.y :: n.z :: transform_normals_with NM rest
  | rest => rest

/-- apply_transform (extrusion.rs): transform every position by the matrix,
and every normal by the transpose of try_inverse().unwrap_or(original),
renormalized. -/
def apply_transform (transform : Mat4) (mesh : Mesh) : Mesh :=
  let normal_matrix := (m4_try_inverse_or transform).transpose
  { positions := transform_positions transform mesh.positions,
    normals := transform_normals_with normal_matrix mesh.normals,
    indices := mesh.indices }

/-- extrude_profile (extrusion.rs): reject non-positive depth, triangulate,
emit bottom cap at z = 0 (normal minus Z, winding reversed), top cap at
z = depth (normal plus Z), side walls for the outer boundary and every
hole, then the optional transform. -/
def extrude_profile (earcut : List ℚ → List Nat → Nat → List Nat)
    (profile : Profile2D) (depth : ℚ) (transform : Option Mat4) : Except String Mesh :=
  if depth ≤ 0 then Except.error "Depth must be positive"
  else
    match profile.triangulate earcut with
    | Except.error e => Except.error e
    | Except.ok tri =>
      let mesh0 := Mesh.with_capacity 0 0
      let mesh1 := create_cap_mesh tri 0 ⟨0, 0, -1⟩ mesh0
      let mesh2 := create_cap_mesh tri depth ⟨0, 0, 1⟩ mesh1
      let mesh3 := create_side_walls profile.outer depth mesh2
      let mesh4 := profile.holes.foldl (fun m h => create_side_walls h depth m) mesh3
      let mesh5 :=
        match transform with
        | some mat => apply_transform mat mesh4
        | none => mesh4
      Except.ok mesh5

/-! ## router.rs : mesh transformation by the composed placement -/

/-- The per-normal step of GeometryRouter::transform_mesh (router.rs): the
normal is multiplied by the upper-left 3-by-3 block of the transform — with
no inversion — and renormalized. -/
def transform_mesh_normal (M : Mat4) (n : V3) : V3 :=
  normalizeV (mulVec3 (upper_left M) n)

/-- The pre-normalization vector of the same step, used to compare
directions exactly. -/
def transform_mesh_normal_raw (M : Mat4) (n : V3) : V3 :=
  mulVec3 (upper_left M) n

/-- The normal loop of GeometryRouter::transform_mesh. -/
def router_transform_normals (M : Mat4) : List ℚ → List ℚ
  | x :: y :: z :: rest =>
    let n := transform_mesh_normal M ⟨x, y, z⟩
    n.x :: n.y :: n.z :: router_transform_normals M rest
  | rest => rest

/-- GeometryRouter::transform_mesh (router.rs): positions through the full
homogeneous transform, normals through the raw upper-left 3-by-3 followed
by renormalization. -/
def transform_mesh (M : Mat4) (mesh : Mesh) : Mesh :=
  { positions := transform_positions M mesh.positions,
    normals := router_transform_normals M mesh.normals,
    indices := mesh.indices }

/-- Modelled from the spec: the normal rule the specification describes for
the composed placement transform — multiply by the inverse-transpose of the
upper-left 3-by-3 (falling back to the original matrix when the inverse is
degenerate) and renormalize.  This definition follows the words of the
specification, to be compared with transform_mesh_normal above, which is
the translation of the code. -/
def spec_placement_normal_raw (M : Mat4) (n : V3) : V3 :=
  mulVec3 (m3_try_inverse_or (upper_left M)).transpose n


/-! ## profiles.rs : the profile interpreter (parametric path)

The parametric profiles and the 2D position transform are translated in
full.  The Arbitrary and Composite dispatch arms invoke the curve
interpreter (process_arbitrary, process_composite and the process_curve
family), which no claim in this development reaches; those arms are marked
by an error value rather than translated. -/

/-- Lift a pure Result into the decoder monad. -/
def liftE {α : Type} (r : Except String α) : DecM α := fun st => (r, st)

/-- process_rectangle (profiles.rs): centered box from XDim and YDim. -/
def process_rectangle (profile : DecodedEntity) : Except String Profile2D :=
  match profile.get_float 3 with
  | none => Except.error "Rectangle missing XDim"
  | some x_dim =>
    match profile.get_float 4 with
    | none => Except.error "Rectangle missing YDim"
    | some y_dim =>
      let half_x := x_dim / 2
      let half_y := y_dim / 2
      Except.ok (Profile2D.new
        [⟨-half_x, -half_y⟩, ⟨half_x, -half_y⟩, ⟨half_x, half_y⟩, ⟨-half_x, half_y⟩])

/-- process_circle (profiles.rs): 64-segment polygon.  cosT and sinT take
the turn fraction i / 64 (the source evaluates cos and sin at the radian
angle two-pi-times that fraction). -/
def process_circle (cosT sinT : ℚ → ℚ) (profile : DecodedEntity) : Except String Profile2D :=
  match profile.get_float 3 with
  | none => Except.error "Circle missing Radius"
  | some radius =>
    Except.ok (Profile2D.new
      ((List.range 64).map (fun i =>
        ⟨radius * cosT ((i : ℚ) / 64), radius * sinT ((i : ℚ) / 64)⟩)))

/-- process_circle_hollow (profiles.rs): 64-segment outer ring and a
reversed 64-segment inner ring at radius minus wall thickness. -/
def process_circle_hollow (cosT sinT : ℚ → ℚ) (profile : DecodedEntity) :
    Except String Profile2D :=
  match profile.get_float 3 with
  | none => Except.error "CircleHollow missing Radius"
  | some radius =>
    match profile.get_float 4 with
    | none => Except.error "CircleHollow missing WallThickness"
    | some wall_thickness =>
      let inner_radius := radius - wall_thickness
      let outer := (List.range 64).map (fun i =>
        (⟨radius * cosT ((i : ℚ) / 64), radius * sinT ((i : ℚ) / 64)⟩ : V2))
      let inner := ((List.range 64).reverse).map (fun i =>
        (⟨inner_radius * cosT ((i : ℚ) / 64), inner_radius * sinT ((i : ℚ) / 64)⟩ : V2))
      Except.ok ((Profile2D.new outer).add_hole inner)

/-- process_i_shape (profiles.rs): the 12-vertex I contour. -/
def process_i_shape (profile : DecodedEntity) : Except String Profile2D :=
  match profile.get_float 3, profile.get_float 4, profile.get_float 5, profile.get_float 6 with
  | some overall_width, some overall_depth, some web_thickness, some flange_thickness =>
    let half_width := overall_width / 2
    let half_depth := overall_depth / 2
    let half_web := web_thickness / 2
    Except.ok (Profile2D.new
      [⟨-half_width, -half_depth⟩, ⟨half_width, -half_depth⟩,
       ⟨half_width, -half_depth + flange_thickness⟩,
       ⟨half_web, -half_depth + flange_thickness⟩,
       ⟨half_web, half_depth - flange_thickness⟩,
       ⟨half_width, half_depth - flange_thickness⟩,
       ⟨half_width, half_depth⟩, ⟨-half_width, half_depth⟩,
       ⟨-half_width, half_depth - flange_thickness⟩,
       ⟨-half_web, half_depth - flange_thickness⟩,
       ⟨-half_web, -half_depth + flange_thickness⟩,
       ⟨-half_width, -half_depth + flange_thickness⟩])
  | _, _, _, _ => Except.error "I-Shape missing a dimension"

/-- process_l_shape (profiles.rs): the 6-vertex L contour. -/
def process_l_shape (profile : DecodedEntity) : Except String Profile2D :=
  match profile.get_float 3, profile.get_float 4, profile.get_float 5 with
  | some depth, some width, some thickness =>
    Except.ok (Profile2D.new
      [⟨0, 0⟩, ⟨width, 0⟩, ⟨width, thickness⟩, ⟨thickness, thickness⟩,
       ⟨thickness, depth⟩, ⟨0, depth⟩])
  | _, _, _ => Except.error "L-Shape missing a dimension"

/-- process_u_shape (profiles.rs): the 8-vertex U contour. -/
def process_u_shape (profile : DecodedEntity) : Except String Profile2D :=
  match profile.get_float 3, profile.get_float 4, profile.get_float 5, profile.get_float 6 with
  | some depth, some flange_width, some web_thickness, some flange_thickness =>
    let half_depth := depth / 2
    Except.ok (Profile2D.new
      [⟨0, -half_depth⟩, ⟨flange_width, -half_depth⟩,
       ⟨flange_width, -half_depth + flange_thickness⟩,
       ⟨web_thickness, -half_depth + flange_thickness⟩,
       ⟨web_thickness, half_depth - flange_thickness⟩,
       ⟨flange_width, half_depth - flange_thickness⟩,
       ⟨flange_width, half_depth⟩, ⟨0, half_depth⟩])
  | _, _, _, _ => Except.error "U-Shape missing a dimension"

/-- process_t_shape (profiles.rs): the 8-vertex T contour. -/
def process_t_shape (profile : DecodedEntity) : Except String Profile2D :=
  match profile.get_float 3, profile.get_float 4, profile.get_float 5, profile.get_float 6 with
  | some depth, some flange_width, some web_thickness, some flange_thickness =>
    let half_flange := flange_width / 2
    let half_web := web_thickness / 2
    Except.ok (Profile2D.new
      [⟨-half_web, 0⟩, ⟨-half_web, depth - flange_thickness⟩,
       ⟨-half_flange, depth - flange_thickness⟩, ⟨-half_flange, depth⟩,
       ⟨half_flange, depth⟩, ⟨half_flange, depth - flange_thickness⟩,
       ⟨half_web, depth - flange_thickness⟩, ⟨half_web, 0⟩])
  | _, _, _, _ => Except.error "T-Shape missing a dimension"

/-- process_c_shape (profiles.rs): the 8-vertex C contour; a missing girth
defaults to twice the wall thickness. -/
def process_c_shape (profile : DecodedEntity) : Except String Profile2D :=
  match profile.get_float 3, profile.get_float 4, profile.get_float 5 with
  | some depth, some width, some wall_thickness =>
    let girth := (profile.get_float 6).getD (wall_thickness * 2)
    let half_depth := depth / 2
    let _ := width
    Except.ok (Profile2D.new
      [⟨girth, -half_depth⟩, ⟨0, -half_depth⟩, ⟨0, half_depth⟩, ⟨girth, half_depth⟩,
       ⟨girth, half_depth - wall_thickness⟩, ⟨wall_thickness, half_depth - wall_thickness⟩,
       ⟨wall_thickness, -half_depth + wall_thickness⟩, ⟨girth, -half_depth + wall_thickness⟩])
  | _, _, _ => Except.error "C-Shape missing a dimension"

/-- process_z_shape (profiles.rs): the 12-vertex Z contour. -/
def process_z_shape (profile : DecodedEntity) : Except String Profile2D :=
  match profile.get_float 3, profile.get_float 4, profile.get_float 5, profile.get_float 6 with
  | some depth, some flange_width, some web_thickness, some flange_thickness =>
    let half_depth := depth / 2
    let half_web := web_thickness / 2
    Except.ok (Profile2D.new
      [⟨-half_web, -half_depth⟩, ⟨-half_web - flange_width, -half_depth⟩,
       ⟨-half_web - flange_width, -half_depth + flange_thickness⟩,
       ⟨-half_web, -half_depth + flange_thickness⟩,
       ⟨-half_web, half_depth - flange_thickness⟩,
       ⟨half_web, half_depth - flange_thickness⟩,
       ⟨half_web, half_depth⟩, ⟨half_web + flange_width, half_depth⟩,
       ⟨half_web + flange_width, half_depth - flange_thickness⟩,
       ⟨half_web, half_depth - flange_thickness⟩,
       ⟨half_web, -half_depth + flange_thickness⟩,
       ⟨-half_web, -half_depth + flange_thickness⟩])
  | _, _, _, _ => Except.error "Z-Shape missing a dimension"

/-- Application of the 2D rotation and translation of apply_profile_position
to one point: rotation by the x-axis direction, then translation. -/
def profile_position_apply (dir_x dir_y loc_x loc_y : ℚ) (p : V2) : V2 :=
  ⟨p.x * dir_x + p.y * (-dir_y) + loc_x, p.x * dir_y + p.y * dir_x + loc_y⟩

/-- apply_profile_position (profiles.rs): read the 2D placement's Location
and RefDirection (normalized, defaulting to the identity frame), skip the
transform when it is the identity within 1e-10, otherwise rotate and
translate every outer and hole vertex. -/
def apply_profile_position (profile : Profile2D) (placement : DecodedEntity) :
    DecM Profile2D := do
  let locPair ←
    match placement.get 0 with
    | some loc_attr =>
      if loc_attr.is_null then pure ((0 : ℚ), (0 : ℚ))
      else do
        let r ← resolve_ref loc_attr
        match r with
        | some loc_entity =>
          match (loc_entity.get 0).bind AttributeValue.as_list with
          | none => decThrow "Missing point coordinates"
          | some coords =>
            pure (((coords.get? 0).bind AttributeValue.as_float).getD 0,
                  ((coords.get? 1).bind AttributeValue.as_float).getD 0)
        | none => pure ((0 : ℚ), (0 : ℚ))
    | none => pure ((0 : ℚ), (0 : ℚ))
  let dirPair ←
    match placement.get 1 with
    | some dir_attr =>
      if dir_attr.is_null then pure ((1 : ℚ), (0 : ℚ))
      else do
        let r ← resolve_ref dir_attr
        match r with
        | some dir_entity =>
          match (dir_entity.get 0).bind AttributeValue.as_list with
          | none => decThrow "Missing direction ratios"
          | some ratios =>
            let x := ((ratios.get? 0).bind AttributeValue.as_float).getD 1
            let y := ((ratios.get? 1).bind AttributeValue.as_float).getD 0
            let len := rat_sqrt (x * x + y * y)
            if len > 1 / 10000000000 then pure (x / len, y / len)
            else pure ((1 : ℚ), (0 : ℚ))
        | none => pure ((1 : ℚ), (0 : ℚ))
    | none => pure ((1 : ℚ), (0 : ℚ))
  let (loc_x, loc_y) := locPair
  let (dir_x, dir_y) := dirPair
  if |loc_x| < 1 / 10000000000 ∧ |loc_y| < 1 / 10000000000 ∧
     |dir_x - 1| < 1 / 10000000000 ∧ |dir_y| < 1 / 10000000000 then
    pure profile
  else
    pure { outer := profile.outer.map (profile_position_apply dir_x dir_y loc_x loc_y),
           holes := profile.holes.map (fun h =>
             h.map (profile_position_apply dir_x dir_y loc_x loc_y)) }

/-- process_parametric (profiles.rs): build the base shape, then apply the
profile Position (attribute 2) when it resolves to a 2D axis placement. -/
def process_parametric (cosT sinT : ℚ → ℚ) (profile : DecodedEntity) : DecM Profile2D := do
  let base ← liftE
    (match profile.ifc_type with
     | IfcType.IfcRectangleProfileDef => process_rectangle profile
     | IfcType.IfcCircleProfileDef => process_circle cosT sinT profile
     | IfcType.IfcCircleHollowProfileDef => process_circle_hollow cosT sinT profile
     | IfcType.IfcIShapeProfileDef => process_i_shape profile
     | IfcType.IfcLShapeProfileDef => process_l_shape profile
     | IfcType.IfcUShapeProfileDef => process_u_shape profile
     | IfcType.IfcTShapeProfileDef => process_t_shape profile
     | IfcType.IfcCShapeProfileDef => process_c_shape profile
     | IfcType.IfcZShapeProfileDef => process_z_shape profile
     | _ => Except.error "Unsupported parametric profile")
  match profile.get 2 with
  | some pos_attr =>
    if pos_attr.is_null then pure base
    else do
      let r ← resolve_ref pos_attr
      match r with
      | some pos_entity =>
        if pos_entity.ifc_type == IfcType.IfcAxis2Placement2D then
          apply_profile_position base pos_entity
        else pure base
      | none => pure base
  | none => pure base

/-- ProfileProcessor::process (profiles.rs): dispatch on the profile
category.  The Arbitrary and Composite arms, which no claim exercises, are
marked by errors instead of being translated; see the section comment. -/
def profile_process (cosT sinT : ℚ → ℚ) (profile : DecodedEntity) : DecM Profile2D :=
  match profile_category profile.ifc_type with
  | some ProfileCategory.Parametric => process_parametric cosT sinT profile
  | some ProfileCategory.Arbitrary => decThrow "process_arbitrary: not modelled here"
  | some ProfileCategory.Composite => decThrow "process_composite: not modelled here"
  | _ => decThrow "Unsupported profile type"

/-! ## profiles.rs : trimmed conic pieces -/

/-- The per-item loop of extract_trim_param (profiles.rs): a list item whose
first element is the string IFCPARAMETERVALUE returns its second element as
float (terminating the loop even when that lookup fails); otherwise a bare
numeric item is returned; anything else — in particular an entity reference
to a cartesian point — is skipped. -/
def extract_trim_param_loop : List AttributeValue → Option ℚ
  | [] => none
  | item :: rest =>
    let param : Option (Option ℚ) :=
      match item.as_list with
      | some inner_list =>
        if 2 ≤ inner_list.length then
          match (inner_list.get? 0).bind AttributeValue.as_string with
          | some type_name =>
            if type_name = "IFCPARAMETERVALUE" then
              some ((inner_list.get? 1).bind AttributeValue.as_float)
            else none
          | none => none
        else none
      | none => none
    match param with
    | some r => r
    | none =>
      match item.as_float with
      | some f => some f
      | none => extract_trim_param_loop rest

/-- extract_trim_param (profiles.rs): requires the trim attribute to be a
list, then scans it. -/
def extract_trim_param (attr : AttributeValue) : Option ℚ :=
  match attr.as_list with
  | some l => extract_trim_param_loop l
  | none => none

/-- The SenseAgreement reading of process_trimmed_curve (profiles.rs):
an Enum compares its dot-stripped payload against T; any other shape leaves
the default true. -/
def trimmed_curve_sense : Option AttributeValue → Bool
  | some (AttributeValue.Enum s) => s == "T"
  | some _ => true
  | none => true

/-- The angle, in degrees, of sample i of process_trimmed_conic
(profiles.rs).  The source converts the trims to radians first and then
runs the same affine arithmetic; since the conversion is multiplication by
the positive constant pi over 180, computing in degrees is the same loop
carried through that bijection, and cosT and sinT below consume the turn
fraction degrees / 360. -/
def trimmed_conic_angle (trim1 trim2 : Option ℚ) (sense : Bool) (i : Nat) : ℚ :=
  let start_angle := trim1.getD 0
  let end_angle := trim2.getD 360
  let angle_range := if sense then end_angle - start_angle else start_angle - end_angle
  if sense then start_angle + ((i : ℚ) / 32) * angle_range
  else start_angle - ((i : ℚ) / 32) * |angle_range|

/-- The sample points of process_trimmed_conic (profiles.rs): 33 points
(num_segments + 1 with num_segments = 32) on the placed conic, with rotc
and rots standing for the cosine and sine of the placement rotation that
the source obtains through atan2. -/
def process_trimmed_conic_points (cosT sinT : ℚ → ℚ) (radius radius2 cx cy rotc rots : ℚ)
    (trim1 trim2 : Option ℚ) (sense : Bool) : List V2 :=
  (List.range 33).map (fun i =>
    let deg := trimmed_conic_angle trim1 trim2 sense i
    let x := radius * cosT (deg / 360)
    let y := radius2 * sinT (deg / 360)
    ⟨x * rotc - y * rots + cx, x * rots + y * rotc + cy⟩)

/-! ## processors.rs : FacetedBrep bound orientation -/

/-- The Orientation reading of FacetedBrepProcessor::process (processors.rs,
lines 535-540): an Enum attribute is compared — dots included — against the
literal .F.; every other shape defaults to true.  The decoder stores enum
payloads with the dots stripped, so the comparison against a dotted literal
can never be equal. -/
def faceted_brep_orientation : Option AttributeValue → Bool
  | some (AttributeValue.Enum e) => e != ".F."
  | some _ => true
  | none => true

/-- The polygon-points step of the same loop (processors.rs, lines 542-549):
reverse the extracted loop points exactly when the orientation is false. -/
def faceted_brep_bound_points (orientation_attr : Option AttributeValue)
    (points : List V3) : List V3 :=
  if faceted_brep_orientation orientation_attr then points else points.reverse

/-! ## processors.rs : the ExtrudedAreaSolid processor -/

/-- The extrusion-direction transform selection of
ExtrudedAreaSolidProcessor::process (processors.rs, lines 108-148): a
direction within 1e-3 of the local Z axis needs no rotation, but a downward
direction shifts the solid by depth along minus Z; otherwise an orthonormal
frame is built whose Z is the direction. -/
def extruded_direction_transform (direction : V3) (depth : ℚ) : Option Mat4 :=
  if |direction.x| < 1 / 1000 ∧ |direction.y| < 1 / 1000 then
    if direction.z < 0 then some (new_translation ⟨0, 0, -depth⟩) else none
  else
    let new_z := normalizeV direction
    let up : V3 := if |new_z.z| > 9 / 10 then ⟨0, 1, 0⟩ else ⟨0, 0, 1⟩
    let new_x := normalizeV (cross3 up new_z)
    let new_y := normalizeV (cross3 new_z new_x)
    some (Matrix.of
      !![new_x.x, new_y.x, new_z.x, 0;
         new_x.y, new_y.y, new_z.y, 0;
         new_x.z, new_y.z, new_z.z, 0;
         0, 0, 0, 1])

/-- parse_direction of ExtrudedAreaSolidProcessor (processors.rs). -/
def parse_direction (direction_entity : DecodedEntity) : Except String V3 :=
  if direction_entity.ifc_type == IfcType.IfcDirection then
    match direction_entity.get 0 with
    | none => Except.error "IfcDirection missing ratios"
    | some ratios_attr =>
      match ratios_attr.as_list with
      | none => Except.error "Expected ratio list"
      | some ratios =>
        Except.ok
          ⟨((ratios.get? 0).bind AttributeValue.as_float).getD 0,
           ((ratios.get? 1).bind AttributeValue.as_float).getD 0,
           ((ratios.get? 2).bind AttributeValue.as_float).getD 0⟩
  else Except.error "Expected IfcDirection"

/-- parse_cartesian_point of ExtrudedAreaSolidProcessor (processors.rs). -/
def parse_cartesian_point (parent : DecodedEntity) (attr_index : Nat) : DecM V3 := do
  let point_attr ←
    match parent.get attr_index with
    | some a => pure a
    | none => decThrow "Missing cartesian point"
  let r ← resolve_ref point_attr
  let point_entity ←
    match r with
    | some e => pure e
    | none => decThrow "Failed to resolve cartesian point"
  if point_entity.ifc_type == IfcType.IfcCartesianPoint then
    match point_entity.get 0 with
    | none => decThrow "IfcCartesianPoint missing coordinates"
    | some coords_attr =>
      match coords_attr.as_list with
      | none => decThrow "Expected coordinate list"
      | some coords =>
        pure ⟨((coords.get? 0).bind AttributeValue.as_float).getD 0,
              ((coords.get? 1).bind AttributeValue.as_float).getD 0,
              ((coords.get? 2).bind AttributeValue.as_float).getD 0⟩
  else decThrow "Expected IfcCartesianPoint"

/-- Column-basis 4-by-4 matrix with a translation column, as built at the
end of parse_axis2_placement_3d. -/
def axis_matrix (x y z loc : V3) : Mat4 :=
  Matrix.of
    !![x.x, y.x, z.x, loc.x;
       x.y, y.y, z.y, loc.y;
       x.z, y.z, z.z, loc.z;
       0, 0, 0, 1]

/-- parse_axis2_placement_3d of ExtrudedAreaSolidProcessor (processors.rs,
lines 175-250): location, optional axis (default plus Z) and reference
direction (default plus X), Gram-Schmidt correction of X against Z with the
1e-6 degeneracy fallback, Y as Z cross X. -/
def parse_axis2_placement_3d (placement : DecodedEntity) : DecM Mat4 := do
  let location ← parse_cartesian_point placement 0
  let z_axis ←
    match placement.get 1 with
    | some axis_attr =>
      if axis_attr.is_null then pure (⟨0, 0, 1⟩ : V3)
      else do
        let r ← resolve_ref axis_attr
        match r with
        | some axis_entity => liftE (parse_direction axis_entity)
        | none => pure (⟨0, 0, 1⟩ : V3)
    | none => pure (⟨0, 0, 1⟩ : V3)
  let x_axis ←
    match placement.get 2 with
    | some ref_dir_attr =>
      if ref_dir_attr.is_null then pure (⟨1, 0, 0⟩ : V3)
      else do
        let r ← resolve_ref ref_dir_attr
        match r with
        | some ref_dir_entity => liftE (parse_direction ref_dir_entity)
        | none => pure (⟨1, 0, 0⟩ : V3)
    | none => pure (⟨1, 0, 0⟩ : V3)
  let z_axis_final := normalizeV z_axis
  let x_axis_normalized := normalizeV x_axis
  let dot_product := dot3 x_axis_normalized z_axis_final
  let x_axis_orthogonal : V3 :=
    ⟨x_axis_normalized.x - z_axis_final.x * dot_product,
     x_axis_normalized.y - z_axis_final.y * dot_product,
     x_axis_normalized.z - z_axis_final.z * dot_product⟩
  let x_axis_final :=
    if rat_sqrt (dot3 x_axis_orthogonal x_axis_orthogonal) > 1 / 1000000 then
      normalizeV x_axis_orthogonal
    else if |z_axis_final.z| < 9 / 10 then
      normalizeV (cross3 ⟨0, 0, 1⟩ z_axis_final)
    else
      normalizeV (cross3 ⟨1, 0, 0⟩ z_axis_final)
  let y_axis := normalizeV (cross3 z_axis_final x_axis_final)
  pure (axis_matrix x_axis_final y_axis z_axis_final location)

/-- ExtrudedAreaSolidProcessor::process (processors.rs, lines 34-166):
resolve and interpret the profile, bail out to an empty mesh on an empty
outer contour, resolve the extrusion direction (components defaulting to
0, 0, 1) and normalize it, read the depth, choose the direction transform,
extrude, and finally apply the optional Position placement. -/
def extruded_area_solid_process (earcut : List ℚ → List Nat → Nat → List Nat)
    (cosT sinT : ℚ → ℚ) (entity : DecodedEntity) : DecM Mesh := do
  let profile_attr ←
    match entity.get 0 with
    | some a => pure a
    | none => decThrow "ExtrudedAreaSolid missing SweptArea"
  let pr ← resolve_ref profile_attr
  let profile_entity ←
    match pr with
    | some e => pure e
    | none => decThrow "Failed to resolve SweptArea"
  let profile ← profile_process cosT sinT profile_entity
  if profile.outer.isEmpty then pure Mesh.new
  else do
    let direction_attr ←
      match entity.get 2 with
      | some a => pure a
      | none => decThrow "ExtrudedAreaSolid missing ExtrudedDirection"
    let dr ← resolve_ref direction_attr
    let direction_entity ←
      match dr with
      | some e => pure e
      | none => decThrow "Failed to resolve ExtrudedDirection"
    if direction_entity.ifc_type == IfcType.IfcDirection then do
      let ratios_attr ←
        match direction_entity.get 0 with
        | some a => pure a
        | none => decThrow "IfcDirection missing ratios"
      let ratios ←
        match ratios_attr.as_list with
        | some l => pure l
        | none => decThrow "Expected ratio list"
      let dir_x := ((ratios.get? 0).bind AttributeValue.as_float).getD 0
      let dir_y := ((ratios.get? 1).bind AttributeValue.as_float).getD 0
      let dir_z := ((ratios.get? 2).bind AttributeValue.as_float).getD 1
      let direction := normalizeV ⟨dir_x, dir_y, dir_z⟩
      let depth ←
        match entity.get_float 3 with
        | some d => pure d
        | none => decThrow "ExtrudedAreaSolid missing Depth"
      let transform := extruded_direction_transform direction depth
      let mesh ← liftE (extrude_profile earcut profile depth transform)
      match entity.get 1 with
      | some pos_attr =>
        if pos_attr.is_null then pure mesh
        else do
          let pp ← resolve_ref pos_attr
          match pp with
          | some pos_entity =>
            if pos_entity.ifc_type == IfcType.IfcAxis2Placement3D then do
              let pos_transform ← parse_axis2_placement_3d pos_entity
              pure (apply_transform pos_transform mesh)
            else pure mesh
          | none => pure mesh
      | none => pure mesh
    else decThrow "Expected IfcDirection"


/-! ## Helper lemmas about the mesh constructions -/

/-- Induction principle consuming a list three elements at a time, matching
the shape of the flat-array loops. -/
def tripleRec {α : Type} {P : List α → Prop}
    (h0 : P []) (h1 : ∀ a, P [a]) (h2 : ∀ a b, P [a, b])
    (h3 : ∀ a b c t, P t → P (a :: b :: c :: t)) : ∀ l, P l
  | [] => h0
  | [a] => h1 a
  | [a, b] => h2 a b
  | a :: b :: c :: t => h3 a b c t (tripleRec h0 h1 h2 h3 t)

/-- The triangle indices that add_cap_triangles appends, as a pure list. -/
def cap_triangle_indices : List Nat → Nat → ℚ → List Nat
  | i0 :: i1 :: i2 :: rest, base, z =>
    (if z = 0 then [base + i0, base + i2, base + i1]
     else [base + i0, base + i1, base + i2]) ++ cap_triangle_indices rest base z
  | _, _, _ => []

theorem add_cap_triangles_eq (base : Nat) (z : ℚ) :
    ∀ (l : List Nat) (m : Mesh),
      add_cap_triangles l base z m =
        { m with indices := m.indices ++ cap_triangle_indices l base z } := by
  intro l
  induction l using tripleRec with
  | h0 => intro m; simp [add_cap_triangles, cap_triangle_indices]
  | h1 a => intro m; simp [add_cap_triangles, cap_triangle_indices]
  | h2 a b => intro m; simp [add_cap_triangles, cap_triangle_indices]
  | h3 a b c t ih =>
    intro m
    by_cases hz : z = 0
    · subst hz
      simp [add_cap_triangles, cap_triangle_indices, ih, Mesh.add_triangle,
        List.append_assoc]
    · simp [add_cap_triangles, cap_triangle_indices, hz, ih, Mesh.add_triangle,
        List.append_assoc]

theorem foldl_add_vertex_cap (z : ℚ) (n : V3) :
    ∀ (pts : List V2) (m : Mesh),
      pts.foldl (fun m p => m.add_vertex ⟨p.x, p.y, z⟩ n) m =
        { positions := m.positions ++ (pts.map (fun p => [p.x, p.y, z])).flatten,
          normals := m.normals ++ (pts.map (fun _ => [n.x, n.y, n.z])).flatten,
          indices := m.indices } := by
  intro pts
  induction pts with
  | nil => intro m; simp
  | cons p ps ih =>
    intro m
    rw [List.foldl_cons, ih]
    simp [Mesh.add_vertex, List.append_assoc]

/-- Closed form of create_cap_mesh: one vertex triple per triangulation
point and the cap triangles rebased at the entry vertex count. -/
theorem create_cap_mesh_eq (tri : Triangulation) (z : ℚ) (n : V3) (m : Mesh) :
    create_cap_mesh tri z n m =
      { positions := m.positions ++ (tri.points.map (fun p => [p.x, p.y, z])).flatten,
        normals := m.normals ++ (tri.points.map (fun _ => [n.x, n.y, n.z])).flatten,
        indices := m.indices ++ cap_triangle_indices tri.indices m.vertex_count z } := by
  show add_cap_triangles tri.indices m.vertex_count z
      (tri.points.foldl (fun m p => m.add_vertex ⟨p.x, p.y, z⟩ n) m) = _
  rw [foldl_add_vertex_cap, add_cap_triangles_eq]


/-- The z components of a flat position array, read three entries at a
time. -/
def zsOf : List ℚ → List ℚ
  | _ :: _ :: z :: rest => z :: zsOf rest
  | _ => []

theorem zsOf_append : ∀ (l1 : List ℚ), l1.length % 3 = 0 →
    ∀ l2, zsOf (l1 ++ l2) = zsOf l1 ++ zsOf l2 := by
  intro l1
  induction l1 using tripleRec with
  | h0 => intro _ l2; simp [zsOf]
  | h1 a => intro h; simp at h
  | h2 a b => intro h; simp at h
  | h3 a b c t ih =>
    intro h l2
    have ht : t.length % 3 = 0 := by
      simp [List.length_cons] at h
      omega
    simp [zsOf, List.cons_append, ih ht]

theorem length_flatten_const {α : Type} (f : α → List ℚ) (c : Nat)
    (h : ∀ x, (f x).length = c) : ∀ l : List α, ((l.map f).flatten).length = c * l.length := by
  intro l
  induction l with
  | nil => simp
  | cons x xs ih => simp [ih, h, Nat.mul_succ]; omega

theorem mem_zsOf_cap_flatten (z : ℚ) :
    ∀ (pts : List V2), ∀ q ∈ zsOf ((pts.map (fun p => [p.x, p.y, z])).flatten), q = z := by
  intro pts
  induction pts with
  | nil => intro q hq; simp [zsOf] at hq
  | cons p ps ih =>
    intro q hq
    simp only [List.map_cons, List.flatten_cons, List.cons_append, List.nil_append, zsOf,
      List.mem_cons] at hq
    rcases hq with h | h
    · exact h
    · exact ih q h

/-- Invariant carried through the mesh-building folds for the z-range
argument: position count a multiple of three and every z entry in the
allowed set. -/
def mesh_z_inv (m : Mesh) (depth : ℚ) : Prop :=
  m.positions.length % 3 = 0 ∧ ∀ q ∈ zsOf m.positions, q = 0 ∨ q = depth

theorem create_cap_mesh_z_inv (tri : Triangulation) (z : ℚ) (n : V3) (m : Mesh)
    (depth : ℚ) (hz : z = 0 ∨ z = depth) (hm : mesh_z_inv m depth) :
    mesh_z_inv (create_cap_mesh tri z n m) depth := by
  obtain ⟨hlen, hmem⟩ := hm
  rw [create_cap_mesh_eq]
  constructor
  · have h3 : ((tri.points.map (fun p => [p.x, p.y, z])).flatten).length = 3 * tri.points.length :=
      length_flatten_const (fun p : V2 => [p.x, p.y, z]) 3 (fun _ => rfl) tri.points
    simp only [List.length_append, h3]
    omega
  · intro q hq
    rw [zsOf_append _ hlen] at hq
    rcases List.mem_append.mp hq with h | h
    · exact hmem q h
    · have := mem_zsOf_cap_flatten z tri.points q h
      rw [this]; exact hz

theorem foldl_preserve {α : Type} (P : Mesh → Prop) (f : Mesh → α → Mesh)
    (hf : ∀ m a, P m → P (f m a)) : ∀ (l : List α) (m : Mesh), P m → P (l.foldl f m) := by
  intro l
  induction l with
  | nil => intro m hm; simpa using hm
  | cons a as ih => intro m hm; rw [List.foldl_cons]; exact ih _ (hf m a hm)

theorem create_side_walls_z_inv (boundary : List V2) (depth : ℚ) (m : Mesh)
    (hm : mesh_z_inv m depth) :
    mesh_z_inv (create_side_walls boundary depth m) depth := by
  unfold create_side_walls
  refine foldl_preserve (fun mm => mesh_z_inv mm depth) _ ?_ _ m hm
  intro mm i hmm
  obtain ⟨hlen, hmem⟩ := hmm
  constructor
  · simp only [Mesh.add_triangle, Mesh.add_vertex, List.length_append, List.length_cons,
      List.length_nil]
    omega
  · intro q hq
    simp only [Mesh.add_triangle, Mesh.add_vertex] at hq
    rw [List.append_assoc, List.append_assoc, List.append_assoc] at hq
    rw [zsOf_append _ hlen] at hq
    rcases List.mem_append.mp hq with h | h
    · exact hmem q h
    · simp only [List.cons_append, List.nil_append, zsOf, List.mem_cons,
        List.not_mem_nil, or_false] at h
      rcases h with h | h | h | h <;> simp [h]

theorem holes_side_walls_z_inv (depth : ℚ) :
    ∀ (holes : List (List V2)) (m : Mesh), mesh_z_inv m depth →
      mesh_z_inv (holes.foldl (fun m h => create_side_walls h depth m) m) depth := by
  intro holes m hm
  exact foldl_preserve (fun mm => mesh_z_inv mm depth) _
    (fun mm h hmm => create_side_walls_z_inv h depth mm hmm) holes m hm

theorem transform_point_translation (v : V3) (p : V3) :
    transform_point (new_translation v) p = ⟨p.x + v.x, p.y + v.y, p.z + v.z⟩ := by
  show V3.mk _ _ _ = _
  have h00 : (new_translation v) 0 0 = 1 := rfl
  have h01 : (new_translation v) 0 1 = 0 := rfl
  have h02 : (new_translation v) 0 2 = 0 := rfl
  have h03 : (new_translation v) 0 3 = v.x := rfl
  have h10 : (new_translation v) 1 0 = 0 := rfl
  have h11 : (new_translation v) 1 1 = 1 := rfl
  have h12 : (new_translation v) 1 2 = 0 := rfl
  have h13 : (new_translation v) 1 3 = v.y := rfl
  have h20 : (new_translation v) 2 0 = 0 := rfl
  have h21 : (new_translation v) 2 1 = 0 := rfl
  have h22 : (new_translation v) 2 2 = 1 := rfl
  have h23 : (new_translation v) 2 3 = v.z := rfl
  have h30 : (new_translation v) 3 0 = 0 := rfl
  have h31 : (new_translation v) 3 1 = 0 := rfl
  have h32 : (new_translation v) 3 2 = 0 := rfl
  have h33 : (new_translation v) 3 3 = 1 := rfl
  simp only [transform_point, h00, h01, h02, h03, h10, h11, h12, h13,
    h20, h21, h22, h23, h30, h31, h32, h33]
  norm_num

theorem zsOf_transform_translation (v : V3) :
    ∀ l : List ℚ, zsOf (transform_positions (new_translation v) l) =
      (zsOf l).map (fun q => q + v.z) := by
  intro l
  induction l using tripleRec with
  | h0 => simp [transform_positions, zsOf]
  | h1 a => simp [transform_positions, zsOf]
  | h2 a b => simp [transform_positions, zsOf]
  | h3 a b c t ih =>
    simp only [transform_positions, transform_point_translation, zsOf, List.map_cons, ih]


/-! ## Claim theorems -/

/-- Mesh index wellformedness: every index addresses an existing vertex. -/
def mesh_indices_ok (m : Mesh) : Prop := ∀ i ∈ m.indices, i < m.vertex_count

theorem merge_indices_ok (m1 m2 : Mesh) (h1 : mesh_indices_ok m1)
    (h2 : mesh_indices_ok m2) : mesh_indices_ok (m1.merge m2) := by
  intro i hi
  have hvc : (m1.merge m2).vertex_count =
      (m1.positions.length + m2.positions.length) / 3 := by
    simp [Mesh.merge, Mesh.vertex_count, List.length_append]
  rw [hvc]
  have hmem : i ∈ m1.indices ++ m2.indices.map (fun j => j + m1.positions.length / 3) := hi
  rcases List.mem_append.mp hmem with h | h
  · have := h1 i h
    simp only [Mesh.vertex_count] at this
    omega
  · obtain ⟨j, hj, rfl⟩ := List.mem_map.mp h
    have := h2 j hj
    simp only [Mesh.vertex_count] at this
    omega

/-- C2: merging preserves the index invariant — every index of the merged
mesh is below its vertex count whenever both inputs satisfy the same bound,
both for merge and for any sequence handed to merge_all; and the right-hand
indices are rebased by the left-hand vertex count at merge time. -/
theorem c2_merge_preserves_index_invariant :
    (∀ m1 m2 : Mesh, mesh_indices_ok m1 → mesh_indices_ok m2 →
      mesh_indices_ok (m1.merge m2)) ∧
    (∀ (m : Mesh) (ms : List Mesh), mesh_indices_ok m →
      (∀ x ∈ ms, mesh_indices_ok x) → mesh_indices_ok (m.merge_all ms)) ∧
    (∀ m1 m2 : Mesh, (m1.merge m2).indices =
      m1.indices ++ m2.indices.map (fun i => i + m1.vertex_count)) := by
  refine ⟨merge_indices_ok, ?_, fun m1 m2 => rfl⟩
  intro m ms
  induction ms generalizing m with
  | nil => intro hm _; exact hm
  | cons x xs ih =>
    intro hm hxs
    show mesh_indices_ok (Mesh.merge_all (if x.is_empty then m else m.merge x) xs)
    by_cases he : x.is_empty
    · rw [if_pos he]
      exact ih m hm (fun y hy => hxs y (List.mem_cons_of_mem _ hy))
    · rw [if_neg he]
      exact ih _ (merge_indices_ok m x hm (hxs x (List.mem_cons_self _ _)))
        (fun y hy => hxs y (List.mem_cons_of_mem _ hy))

/-- Witness for C2 at concrete meshes. -/
theorem c2_merge_preserves_index_invariant_witness :
    mesh_indices_ok (Mesh.merge ⟨[0, 0, 0, 1, 1, 1, 2, 2, 2], [], [0, 1, 2]⟩
      ⟨[5, 5, 5, 6, 6, 6], [], [0, 1, 0]⟩) :=
  c2_merge_preserves_index_invariant.1 _ _
    (by intro i hi; fin_cases hi <;> decide)
    (by intro i hi; fin_cases hi <;> decide)

/-- C4: the FacetedBrep bound with Orientation written .F. in the source
text is stored by the decoder as the dot-free Enum F, yet the processor
compares the stored value against the dotted literal .F.; the comparison is
therefore never equal, the orientation evaluates to true, and the polygon
is NOT reversed — contradicting both the specification and the code's own
comment that .F. means reverse.  This theorem evaluates the code at the
failing input. -/
theorem c4_orientation_false_is_not_reversed :
    faceted_brep_orientation (some (AttributeValue.Enum "F")) = true ∧
    faceted_brep_bound_points (some (AttributeValue.Enum "F"))
        [⟨0, 0, 0⟩, ⟨1, 0, 0⟩, ⟨0, 1, 0⟩] = [⟨0, 0, 0⟩, ⟨1, 0, 0⟩, ⟨0, 1, 0⟩] ∧
    tokenF 4 ".F.".data = some ([], Tok.Enum ['F']) ∧
    AttributeValue.from_token (Tok.Enum ['F']) = AttributeValue.Enum "F" :=
  ⟨rfl, rfl, rfl, rfl⟩

/-- C5 counterexample: resolve_ref on a String attribute returns Ok None —
not a type error — refuting the claim that every non-ref, non-null shape
yields a type error. -/
theorem c5_resolve_ref_string_is_ok_none :
    resolve_ref (AttributeValue.Str "x") (EntityDecoder.new []) =
      (Except.ok none, EntityDecoder.new []) := rfl

/-- C5 amended: resolve_ref follows an EntityRef (propagating the decode
result) and returns Ok None for an attribute of any other shape — Null,
Derived, String, Integer, Float, Enum or List alike; no shape produces a
type error. -/
theorem c5_resolve_ref_amended :
    (∀ (st : EntityDecoder) (attr : AttributeValue),
      (∀ id, attr ≠ AttributeValue.EntityRef id) →
      resolve_ref attr st = (Except.ok none, st)) ∧
    (∀ (st : EntityDecoder) (id : Nat) (e : DecodedEntity) (st1 : EntityDecoder),
      decode_by_id id st = (Except.ok e, st1) →
      resolve_ref (AttributeValue.EntityRef id) st = (Except.ok (some e), st1)) := by
  constructor
  · intro st attr h
    cases attr with
    | EntityRef id => exact absurd rfl (h id)
    | _ => rfl
  · intro st id e st1 h
    show (match decode_by_id id st with
      | (Except.ok e, st1) => (Except.ok (some e), st1)
      | (Except.error m, st1) => (Except.error m, st1)) = _
    rw [h]

/-- Witness for the amended C5. -/
theorem c5_resolve_ref_amended_witness :
    resolve_ref (AttributeValue.Float 3) (EntityDecoder.new []) =
      (Except.ok none, EntityDecoder.new []) :=
  c5_resolve_ref_amended.1 (EntityDecoder.new []) (AttributeValue.Float 3)
    (fun _ h => nomatch h)

/-- C9: the entity scanner's next_entity is a total function in this
embedding and returns None — terminating iteration gracefully, with no
panic — both when the hash sign it found has no terminating semicolon
before the end of the buffer, and when the id's digit run is not followed
by an equals sign within the line. -/
theorem c9_next_entity_graceful :
    (∀ (bytes : List Char) (pos k : Nat),
      find_char_from? bytes '#' pos = some k →
      find_char_from? bytes ';' k = none →
      next_entity bytes pos = none) ∧
    (∀ (bytes : List Char) (pos k j : Nat),
      find_char_from? bytes '#' pos = some k →
      find_char_from? bytes ';' k = some j →
      find_char_in_range? bytes '='
        (digit_run_end_bounded bytes (k + 1) (j + 1)) (j + 1) = none →
      next_entity bytes pos = none) := by
  constructor
  · intro bytes pos k h1 h2
    simp only [next_entity, h1, h2]
  · intro bytes pos k j h1 h2 h3
    simp only [next_entity, h1, h2]
    cases hp : parse_u32_fast bytes (k + 1) (digit_run_end_bounded bytes (k + 1) (j + 1)) with
    | none => simp only [hp]
    | some id => simp only [hp, h3]

/-- Witness for C9: a hash sign with no semicolon before end of buffer, and
a line with no equals sign after the id. -/
theorem c9_next_entity_graceful_witness :
    next_entity "#12".data 0 = none ∧ next_entity "#12 IFCX;".data 0 = none :=
  ⟨c9_next_entity_graceful.1 "#12".data 0 0 rfl rfl,
   c9_next_entity_graceful.2 "#12 IFCX;".data 0 0 8 rfl rfl rfl⟩


/-- Concrete rectangle profile for the C7 witness. -/
def c7_profile_w : Profile2D :=
  Profile2D.new [⟨-50, -100⟩, ⟨50, -100⟩, ⟨50, 100⟩, ⟨-50, 100⟩]

/-- Concrete extruded mesh for the C7 witness. -/
def c7_mesh_w : Mesh :=
  match extrude_profile (fun _ _ _ => []) c7_profile_w 300
      (extruded_direction_transform (normalizeV ⟨0, 0, -1⟩) 300) with
  | Except.ok m => m
  | Except.error _ => Mesh.new


theorem zsOf_apply_translation (v : V3) (m : Mesh) :
    zsOf (apply_transform (new_translation v) m).positions =
      (zsOf m.positions).map (fun q => q + v.z) := by
  show zsOf (transform_positions (new_translation v) m.positions) = _
  exact zsOf_transform_translation v m.positions

/-- C7: when the extruded direction resolves to (0, 0, -1), the processor
picks the translation by (0, 0, -depth) (processors.rs lines 108-121), and
the extruded mesh — the profile caps at heights 0 and depth plus the side
walls, shifted down by depth — has every vertex z coordinate inside
[-depth, 0].  A null Position attribute leaves this mesh unchanged
(processors.rs lines 153-163), so this is the mesh the processor returns.
Stated for an arbitrary triangulator, profile and positive depth. -/
theorem c7_neg_direction_z_range (ec : List ℚ → List Nat → Nat → List Nat)
    (profile : Profile2D) (depth : ℚ) (mesh : Mesh)
    (h : extrude_profile ec profile depth
      (extruded_direction_transform (normalizeV ⟨0, 0, -1⟩) depth) = Except.ok mesh) :
    extruded_direction_transform (normalizeV ⟨0, 0, -1⟩) depth =
      some (new_translation ⟨0, 0, -depth⟩) ∧
    ∀ q ∈ zsOf mesh.positions, -depth ≤ q ∧ q ≤ 0 := by
  have hdir : normalizeV (⟨0, 0, -1⟩ : V3) = ⟨0, 0, -1⟩ := by
    with_unfolding_all rfl
  have htr : extruded_direction_transform (⟨0, 0, -1⟩ : V3) depth =
      some (new_translation ⟨0, 0, -depth⟩) := by
    unfold extruded_direction_transform
    norm_num
  rw [hdir] at h ⊢
  refine ⟨htr, ?_⟩
  rw [htr] at h
  by_cases hd : depth ≤ 0
  · unfold extrude_profile at h
    rw [if_pos hd] at h
    exact Except.noConfusion h
  · have hdpos : 0 < depth := lt_of_not_le hd
    unfold extrude_profile at h
    rw [if_neg hd] at h
    cases htri : Profile2D.triangulate ec profile with
    | error e => rw [htri] at h; exact Except.noConfusion h
    | ok tri =>
      rw [htri] at h
      injection h with hm
      intro q hq
      rw [← hm] at hq
      rw [zsOf_apply_translation] at hq
      obtain ⟨q0, hq0, hqeq⟩ := List.mem_map.mp hq
      have hvz : (⟨0, 0, -depth⟩ : V3).z = -depth := rfl
      rw [hvz] at hqeq
      have inv0 : mesh_z_inv Mesh.new depth := by
        refine ⟨rfl, ?_⟩
        intro x hx
        simp [Mesh.new, zsOf] at hx
      have inv1 := create_cap_mesh_z_inv tri 0 ⟨0, 0, -1⟩ (Mesh.with_capacity 0 0) depth
        (Or.inl rfl) inv0
      have inv2 := create_cap_mesh_z_inv tri depth ⟨0, 0, 1⟩ _ depth (Or.inr rfl) inv1
      have inv3 := create_side_walls_z_inv profile.outer depth _ inv2
      have inv4 := holes_side_walls_z_inv depth profile.holes _ inv3
      rcases inv4.2 q0 hq0 with h0 | h0 <;> rw [h0] at hqeq <;> rw [← hqeq] <;>
        constructor <;> linarith

/-- Witness for C7 on a concrete rectangle with depth 300 and an empty
triangulator output. -/
theorem c7_neg_direction_z_range_witness :
    -(300 : ℚ) ≤ (zsOf (c7_mesh_w.positions)).getD 0 0 ∧
      (zsOf (c7_mesh_w.positions)).getD 0 0 ≤ 0 :=
  (c7_neg_direction_z_range (fun _ _ _ => []) c7_profile_w 300 c7_mesh_w
      (by with_unfolding_all rfl)).2
    _ (by with_unfolding_all decide)


theorem char_digit_toNat_bounds (c : Char) (h : c.isDigit = true) :
    48 ≤ c.toNat ∧ c.toNat ≤ 57 := by
  simp only [Char.isDigit, ge_iff_le, Bool.and_eq_true, decide_eq_true_eq] at h
  obtain ⟨h1, h2⟩ := h
  exact ⟨h1, h2⟩

theorem dec_fold_congr :
    ∀ (l : List Char) (a b : Nat), a % 4294967296 = b % 4294967296 →
      (l.foldl (fun r c => r * 10 + (c.toNat - 48)) a) % 4294967296 =
      (l.foldl (fun r c => r * 10 + (c.toNat - 48)) b) % 4294967296 := by
  intro l
  induction l with
  | nil => intro a b h; simpa using h
  | cons c cs ih =>
    intro a b h
    simp only [List.foldl_cons]
    exact ih _ _ (by omega)

theorem wrap_fold_eq_mod :
    ∀ (l : List Char) (a : Nat), a < 4294967296 → (∀ c ∈ l, c.isDigit = true) →
      l.foldl (fun r c => (r * 10 % 4294967296 + (c.toNat % 256 + 208) % 256) % 4294967296) a
        = (l.foldl (fun r c => r * 10 + (c.toNat - 48)) a) % 4294967296 := by
  intro l
  induction l with
  | nil => intro a ha _; simp [Nat.mod_eq_of_lt ha]
  | cons c cs ih =>
    intro a ha hd
    have hc := char_digit_toNat_bounds c (hd c (List.mem_cons_self _ _))
    have hdig : (c.toNat % 256 + 208) % 256 = c.toNat - 48 := by omega
    simp only [List.foldl_cons, hdig]
    rw [ih _ (Nat.mod_lt _ (by norm_num)) (fun x hx => hd x (List.mem_cons_of_mem _ hx))]
    exact dec_fold_congr cs _ _ (by omega)

/-- parse_u32_inline over an all-digit range is the decimal value of the
run reduced modulo 2^32. -/
theorem parse_u32_inline_eq_mod (content : List Char) (s e : Nat)
    (h : ∀ c ∈ (content.drop s).take (e - s), c.isDigit = true) :
    parse_u32_inline content s e =
      dec_digits_val ((content.drop s).take (e - s)) % 4294967296 := by
  unfold parse_u32_inline dec_digits_val
  exact wrap_fold_eq_mod _ 0 (by norm_num) h

theorem digit_run_slice (content : List Char) (start : Nat) :
    (content.drop (start + 1)).take (digit_run_end content (start + 1) - (start + 1)) =
      (content.drop (start + 1)).takeWhile (fun c => c.isDigit) := by
  unfold digit_run_end
  rw [Nat.add_sub_cancel_left]
  exact ((List.prefix_iff_eq_take).mp (List.takeWhile_prefix _)).symm

theorem build_loop_ids (content : List Char) :
    ∀ (fuel pos : Nat) (entry : Nat × Nat × Nat),
      entry ∈ build_entity_index_loop content content.length pos fuel →
      ∃ s e : Nat, s < e ∧
        (∀ c ∈ (content.drop s).take (e - s), c.isDigit = true) ∧
        entry.1 = dec_digits_val ((content.drop s).take (e - s)) % 4294967296 := by
  intro fuel
  induction fuel with
  | zero => intro pos entry h; simp [build_entity_index_loop] at h
  | succ fuel ih =>
    intro pos entry hmem
    unfold build_entity_index_loop at hmem
    by_cases hp : pos < content.length
    · rw [if_pos hp] at hmem
      cases hfind : find_char_from? content '#' pos with
      | none => rw [hfind] at hmem; simp at hmem
      | some start =>
        rw [hfind] at hmem
        dsimp only at hmem
        by_cases hg : digit_run_end content (start + 1) > start + 1 ∧
            digit_run_end content (start + 1) < content.length ∧
            char_at? content (digit_run_end content (start + 1)) = some '='
        · rw [if_pos hg] at hmem
          cases hsemi : find_char_from? content ';' (digit_run_end content (start + 1)) with
          | none => rw [hsemi] at hmem; simp at hmem
          | some semi =>
            rw [hsemi] at hmem
            rcases List.mem_cons.mp hmem with hhead | htail
            · refine ⟨start + 1, digit_run_end content (start + 1), hg.1, ?_, ?_⟩
              · intro c hc
                rw [digit_run_slice] at hc
                exact List.mem_takeWhile_imp hc
              · rw [hhead]
                show parse_u32_inline content (start + 1) (digit_run_end content (start + 1)) = _
                apply parse_u32_inline_eq_mod
                intro c hc
                rw [digit_run_slice] at hc
                exact List.mem_takeWhile_imp hc
            · exact ih _ _ htail
        · rw [if_neg hg] at hmem
          exact ih _ _ hmem
    · rw [if_neg hp] at hmem
      simp at hmem

/-- The C10 collision demonstration file: one entity whose digit run
denotes 2^32 and one whose digit run denotes 0. -/
def c10_demo : List Char := "#4294967296=A();#0=B();".data

/-- C10: every id recorded by build_entity_index is the decimal value of
the entity id digit run reduced modulo 2^32 — digit runs of 2^32 or more
are neither rejected nor reported, they silently wrap — and two
syntactically different ids can therefore collide: in the demo file the
runs 4294967296 and 0 both produce the stored id 0, and the index lookup
returns the range of the later entity. -/
theorem c10_ids_wrap_mod_2pow32 :
    (∀ (content : List Char) (entry : Nat × Nat × Nat),
      entry ∈ build_entity_index content →
      ∃ s e : Nat, s < e ∧
        (∀ c ∈ (content.drop s).take (e - s), c.isDigit = true) ∧
        entry.1 = dec_digits_val ((content.drop s).take (e - s)) % 4294967296) ∧
    (build_entity_index c10_demo).map (fun t => t.1) = [0, 0] ∧
    index_get (build_entity_index c10_demo) 0 = some (16, 23) := by
  refine ⟨?_, by with_unfolding_all rfl, by with_unfolding_all rfl⟩
  intro content entry h
  exact build_loop_ids content _ 0 entry h

/-- Witness for C10: the general mod-2^32 statement applied to the first
entry of the demo index. -/
theorem c10_ids_wrap_mod_2pow32_witness :
    ∃ s e : Nat, s < e ∧
      (∀ c ∈ (c10_demo.drop s).take (e - s), c.isDigit = true) ∧
      (0 : Nat) = dec_digits_val ((c10_demo.drop s).take (e - s)) % 4294967296 :=
  c10_ids_wrap_mod_2pow32.1 c10_demo (0, 0, 16) (by with_unfolding_all decide)


theorem trim_loop_skips_refs :
    ∀ (pre tail : List AttributeValue),
      (∀ x ∈ pre, ∃ id, x = AttributeValue.EntityRef id) →
      extract_trim_param_loop (pre ++ tail) = extract_trim_param_loop tail := by
  intro pre
  induction pre with
  | nil => intro tail _; rfl
  | cons x xs ih =>
    intro tail hpre
    obtain ⟨id, rfl⟩ := hpre x (List.mem_cons_self _ _)
    show extract_trim_param_loop (AttributeValue.EntityRef id :: (xs ++ tail)) = _
    rw [show extract_trim_param_loop (AttributeValue.EntityRef id :: (xs ++ tail)) =
        extract_trim_param_loop (xs ++ tail) from rfl]
    exact ih tail (fun y hy => hpre y (List.mem_cons_of_mem _ hy))

/-- C8: for a trimmed conic, (1) a trim given as an IfcParameterValue
typed-value list yields its numeric payload even when preceded by any
number of cartesian-point (entity reference) trims, which are skipped;
(2) a trim list holding only entity references yields no parameter;
(3) SenseAgreement enum T reads as a forward sweep and F as reversed;
(4) sampling always produces exactly 33 points (num_segments + 1 with 32
segments); (5) with sense agreement the sweep runs from trim1 (default 0
degrees) at sample 0 to trim2 (default 360 degrees) at sample 32, and
without it the sweep starts at trim1 and, when trim2 lies below trim1,
ends at trim2. -/
theorem c8_trimmed_conic :
    (∀ (pre rest : List AttributeValue) (v : ℚ),
      (∀ x ∈ pre, ∃ id, x = AttributeValue.EntityRef id) →
      extract_trim_param (AttributeValue.Lst (pre ++
        AttributeValue.Lst [AttributeValue.Str "IFCPARAMETERVALUE",
          AttributeValue.Float v] :: rest)) = some v) ∧
    (∀ (l : List AttributeValue),
      (∀ x ∈ l, ∃ id, x = AttributeValue.EntityRef id) →
      extract_trim_param (AttributeValue.Lst l) = none) ∧
    (trimmed_curve_sense (some (AttributeValue.Enum "T")) = true ∧
     trimmed_curve_sense (some (AttributeValue.Enum "F")) = false) ∧
    (∀ (cosT sinT : ℚ → ℚ) (radius radius2 cx cy rotc rots : ℚ)
        (trim1 trim2 : Option ℚ) (sense : Bool),
      (process_trimmed_conic_points cosT sinT radius radius2 cx cy rotc rots
        trim1 trim2 sense).length = 33) ∧
    (∀ (trim1 trim2 : Option ℚ),
      trimmed_conic_angle trim1 trim2 true 0 = trim1.getD 0 ∧
      trimmed_conic_angle trim1 trim2 true 32 = trim2.getD 360 ∧
      trimmed_conic_angle trim1 trim2 false 0 = trim1.getD 0 ∧
      (trim2.getD 360 ≤ trim1.getD 0 →
        trimmed_conic_angle trim1 trim2 false 32 = trim2.getD 360)) := by
  refine ⟨?_, ?_, ⟨rfl, rfl⟩, ?_, ?_⟩
  · intro pre rest v hpre
    show extract_trim_param_loop _ = _
    rw [trim_loop_skips_refs pre _ hpre]
    with_unfolding_all rfl
  · intro l hl
    show extract_trim_param_loop _ = _
    rw [← List.append_nil l, trim_loop_skips_refs l [] hl]
    rfl
  · intro cosT sinT radius radius2 cx cy rotc rots trim1 trim2 sense
    simp [process_trimmed_conic_points]
  · intro trim1 trim2
    refine ⟨?_, ?_, ?_, ?_⟩
    · simp [trimmed_conic_angle]
    · show trim1.getD 0 + ((32 : ℕ) : ℚ) / 32 * (trim2.getD 360 - trim1.getD 0) = _
      push_cast
      ring
    · simp [trimmed_conic_angle]
    · intro h
      show trim1.getD 0 - ((32 : ℕ) : ℚ) / 32 * |trim1.getD 0 - trim2.getD 360| = _
      rw [abs_of_nonneg (by linarith)]
      push_cast
      ring

/-- Witness for C8: the parameter-extraction clause applied to a trim list
holding one cartesian-point reference followed by IFCPARAMETERVALUE(45). -/
theorem c8_trimmed_conic_witness :
    extract_trim_param (AttributeValue.Lst [AttributeValue.EntityRef 7,
      AttributeValue.Lst [AttributeValue.Str "IFCPARAMETERVALUE",
        AttributeValue.Float 45]]) = some 45 :=
  c8_trimmed_conic.1 [AttributeValue.EntityRef 7] [] 45
    (fun _ hx => ⟨7, List.mem_singleton.mp hx⟩)


theorem m3det_eq_det (A : Mat3) : m3det A = A.det := by
  rw [Matrix.det_fin_three]
  unfold m3det
  ring

theorem m3adjugate_eq_adjugate (A : Mat3) : m3adjugate A = A.adjugate := by
  rw [Matrix.adjugate_fin_three]
  unfold m3adjugate
  ext i j
  fin_cases i <;> fin_cases j <;> simp [Matrix.of_apply] <;> ring

theorem m3_try_inverse_or_eq_inv (A : Mat3) (h : A.det ≠ 0) :
    m3_try_inverse_or A = A⁻¹ := by
  unfold m3_try_inverse_or
  rw [m3det_eq_det, if_neg h, m3adjugate_eq_adjugate, Matrix.inv_def,
    Ring.inverse_eq_inv]

/-- The C6 counterexample matrix: a placement scaling x by 2. -/
def c6M : Mat4 := Matrix.of !![(2 : ℚ), 0, 0, 0; 0, 1, 0, 0; 0, 0, 1, 0; 0, 0, 0, 1]

/-- The C6 counterexample normal. -/
def c6n : V3 := ⟨1, 1, 0⟩

/-- Counterexample for C6: on the invertible placement c6M the router
multiplies the normal (1,1,0) by the raw upper-left 3-by-3, giving
direction (2,1,0), while the inverse-transpose rule the spec states gives
direction (1/2,1,0); their cross product is nonzero, so the two results
differ even after renormalization. -/
theorem c6_normal_rule_counterexample :
    transform_mesh_normal_raw c6M c6n = ⟨2, 1, 0⟩ ∧
    spec_placement_normal_raw c6M c6n = ⟨1/2, 1, 0⟩ ∧
    cross3 (transform_mesh_normal_raw c6M c6n)
      (spec_placement_normal_raw c6M c6n) ≠ ⟨0, 0, 0⟩ := by
  refine ⟨by with_unfolding_all decide, by with_unfolding_all decide,
    by with_unfolding_all decide⟩

/-- C6 amended: the router transforms mesh normals by the raw upper-left
3-by-3 of the placement, not its inverse-transpose; the two rules agree
whenever the upper-left block is orthonormal.  The inverse-transpose with
best-effort fallback that the spec describes is the rule of
apply_transform in extrusion.rs, whose fallback clause — a singular
matrix is used unchanged — is the second conjunct. -/
theorem c6_normal_rule_amended :
    (∀ (M : Mat4) (n : V3),
      (upper_left M).transpose * upper_left M = 1 →
      transform_mesh_normal_raw M n = spec_placement_normal_raw M n) ∧
    (∀ M : Mat4, m4det M = 0 → m4_try_inverse_or M = M) := by
  constructor
  · intro M n h
    have hdet : (upper_left M).det ≠ 0 := by
      intro h0
      have h1 : ((upper_left M).transpose * upper_left M).det = (1 : Mat3).det := by
        rw [h]
      rw [Matrix.det_mul, Matrix.det_transpose, h0, Matrix.det_one] at h1
      simp at h1
    have hinv : (upper_left M)⁻¹ = (upper_left M).transpose :=
      Matrix.inv_eq_left_inv h
    unfold transform_mesh_normal_raw spec_placement_normal_raw
    rw [m3_try_inverse_or_eq_inv _ hdet, hinv, Matrix.transpose_transpose]
  · intro M h
    unfold m4_try_inverse_or
    rw [if_pos h]

/-- The C6 witness matrix: a rotation by a quarter turn about z composed
with a translation; its upper-left 3-by-3 is orthonormal. -/
def c6Mw : Mat4 := Matrix.of !![(0 : ℚ), -1, 0, 5; 1, 0, 0, 7; 0, 0, 1, 9; 0, 0, 0, 1]

/-- Witness for the C6 amended theorem: both clauses at concrete inputs —
the orthonormal agreement on c6Mw and the singular fallback on the zero
matrix. -/
theorem c6_normal_rule_amended_witness :
    ((upper_left c6Mw).transpose * upper_left c6Mw = 1 ∧
      transform_mesh_normal_raw c6Mw ⟨1, 2, 3⟩ = spec_placement_normal_raw c6Mw ⟨1, 2, 3⟩) ∧
    (m4det (0 : Mat4) = 0 ∧ m4_try_inverse_or (0 : Mat4) = 0) :=
  ⟨⟨by with_unfolding_all decide,
    c6_normal_rule_amended.1 c6Mw ⟨1, 2, 3⟩ (by with_unfolding_all decide)⟩,
   ⟨by with_unfolding_all decide,
    c6_normal_rule_amended.2 (0 : Mat4) (by with_unfolding_all decide)⟩⟩


/-- The C3 counterexample file: a single entity whose string attribute
contains a semicolon, so the first semicolon of the file lies inside the
string literal. -/
def c3_content : List Char := "#1=IFCWALL(\x27a;b\x27);".data

/-- The decoder state after one prior successful decode of the full line
of entity 1. -/
def c3_st1 : EntityDecoder := (decode_at 0 18 (EntityDecoder.new c3_content)).2

/-- Counterexample for C3: in c3_content the id 1 occurs exactly once and
the index maps it to the byte range (0, 14), cut short at the semicolon
inside the string literal.  After one prior decode of the full line has
populated the cache, decode_by_id 1 answers from the cache and succeeds,
but decode_at on the indexed range parses the truncated slice first and
fails — so decode_by_id(i) does not equal decode_at(index[i]). -/
theorem c3_decode_by_id_counterexample :
    build_entity_index c3_content = [(1, 0, 14)] ∧
    (decode_at 0 18 (EntityDecoder.new c3_content)).1.isOk = true ∧
    (decode_by_id 1 c3_st1).1.isOk = true ∧
    (decode_at 0 14 c3_st1).1.isOk = false := by
  refine ⟨by with_unfolding_all rfl, by with_unfolding_all rfl,
    by with_unfolding_all rfl, by with_unfolding_all rfl⟩

/-- C3 amended: decode_by_id(i) agrees with decode_at on the indexed range
PROVIDED the indexed slice actually parses and yields the id i — decode_at
checks its cache only after a successful parse, keyed by the parsed id,
and decode_by_id checks the cache first and otherwise decodes the indexed
range, so under that proviso the two return the same value in every cache
state.  The proviso holds whenever the indexed range is the whole entity
line, and fails exactly when a prior semicolon (for example inside a
string literal) truncates the range. -/
theorem c3_decode_by_id_amended :
    ∀ (st : EntityDecoder) (i s e : Nat),
      index_get (build_entity_index st.content) i = some (s, e) →
      (∀ idx, st.entity_index = some idx → index_get idx i = some (s, e)) →
      (∃ t toks, parse_entity ((st.content.drop s).take (e - s)) = some (i, t, toks)) →
      (decode_by_id i st).1 = (decode_at s e st).1 := by
  intro st i s e hidx hpre hparse
  obtain ⟨t, toks, hp⟩ := hparse
  cases hc : cache_get st.cache i with
  | some ent =>
    simp only [decode_by_id, decode_at, hc, hp]
  | none =>
    have hcontent : (st.build_index).content = st.content := by
      unfold EntityDecoder.build_index
      cases st.entity_index <;> rfl
    have hcache : (st.build_index).cache = st.cache := by
      unfold EntityDecoder.build_index
      cases st.entity_index <;> rfl
    have hlookup : index_get ((st.build_index).entity_index.getD []) i = some (s, e) := by
      unfold EntityDecoder.build_index
      cases hei : st.entity_index with
      | some idx => rw [hei]; exact hpre idx hei
      | none => simpa using hidx
    simp only [decode_by_id, hc, hlookup]
    simp only [decode_at, hcontent, hcache, hp, hc]

/-- Witness for the C3 amended theorem: a well-formed one-entity file whose
indexed range is the whole line. -/
theorem c3_decode_by_id_amended_witness :
    (decode_by_id 1 (EntityDecoder.new "#1=IFCWALL();".data)).1 =
      (decode_at 0 13 (EntityDecoder.new "#1=IFCWALL();".data)).1 :=
  c3_decode_by_id_amended (EntityDecoder.new "#1=IFCWALL();".data) 1 0 13
    (by with_unfolding_all rfl) (fun idx h => nomatch h)
    ⟨IfcType.IfcWall, [], by with_unfolding_all rfl⟩


def IfcType.untag (n : Nat) : IfcType :=
  if n < 105 then
    match n with
    | 0 => .IfcWall
    | 1 => .IfcWallStandardCase
    | 2 => .IfcSlab
    | 3 => .IfcBeam
    | 4 => .IfcColumn
    | 5 => .IfcRoof
    | 6 => .IfcStair
    | 7 => .IfcRailing
    | 8 => .IfcCurtainWall
    | 9 => .IfcPlate
    | 10 => .IfcMember
    | 11 => .IfcFooting
    | 12 => .IfcPile
    | 13 => .IfcCovering
    | 14 => .IfcBuildingElementProxy
    | 15 => .IfcBuildingElementPart
    | 16 => .IfcElementAssembly
    | 17 => .IfcReinforcingBar
    | 18 => .IfcReinforcingMesh
    | 19 => .IfcTendon
    | 20 => .IfcDoor
    | 21 => .IfcWindow
    | 22 => .IfcOpeningElement
    | 23 => .IfcSpace
    | 24 => .IfcBuildingStorey
    | 25 => .IfcBuilding
    | 26 => .IfcSite
    | 27 => .IfcProject
    | 28 => .IfcRelAggregates
    | 29 => .IfcRelContainedInSpatialStructure
    | 30 => .IfcRelDefinesByProperties
    | 31 => .IfcRelAssociatesMaterial
    | 32 => .IfcRelVoidsElement
    | 33 => .IfcRelFillsElement
    | 34 => .IfcPropertySet
    | 35 => .IfcPropertySingleValue
    | 36 => .IfcPropertyEnumeratedValue
    | 37 => .IfcElementQuantity
    | 38 => .IfcQuantityLength
    | 39 => .IfcQuantityArea
    | 40 => .IfcQuantityVolume
    | 41 => .IfcQuantityCount
    | 42 => .IfcQuantityWeight
    | 43 => .IfcQuantityTime
    | 44 => .IfcPhysicalSimpleQuantity
    | 45 => .IfcMaterial
    | 46 => .IfcMaterialLayer
    | 47 => .IfcMaterialLayerSet
    | 48 => .IfcMaterialLayerSetUsage
    | 49 => .IfcShapeRepresentation
    | 50 => .IfcProductDefinitionShape
    | 51 => .IfcExtrudedAreaSolid
    | 52 => .IfcSweptDiskSolid
    | 53 => .IfcRevolvedAreaSolid
    | 54 => .IfcFacetedBrep
    | 55 => .IfcTriangulatedFaceSet
    | 56 => .IfcPolygonalFaceSet
    | 57 => .IfcBooleanResult
    | 58 => .IfcBooleanClippingResult
    | 59 => .IfcAxis2Placement3D
    | 60 => .IfcAxis2Placement2D
    | 61 => .IfcLocalPlacement
    | 62 => .IfcCartesianPoint
    | 63 => .IfcDirection
    | 64 => .IfcPolyline
    | 65 => .IfcArbitraryClosedProfileDef
    | 66 => .IfcArbitraryProfileDefWithVoids
    | 67 => .IfcRectangleProfileDef
    | 68 => .IfcCircleProfileDef
    | 69 => .IfcIShapeProfileDef
    | 70 => .IfcLShapeProfileDef
    | 71 => .IfcUShapeProfileDef
    | 72 => .IfcTShapeProfileDef
    | 73 => .IfcCShapeProfileDef
    | 74 => .IfcZShapeProfileDef
    | 75 => .IfcCircleHollowProfileDef
    | 76 => .IfcCompositeProfileDef
    | 77 => .IfcIndexedPolyCurve
    | 78 => .IfcCompositeCurve
    | 79 => .IfcCompositeCurveSegment
    | 80 => .IfcTrimmedCurve
    | 81 => .IfcCircle
    | 82 => .IfcEllipse
    | 83 => .IfcLine
    | 84 => .IfcCartesianPointList2D
    | 85 => .IfcCartesianPointList3D
    | 86 => .IfcMappedItem
    | 87 => .IfcRepresentationMap
    | 88 => .IfcPipeSegment
    | 89 => .IfcDuctSegment
    | 90 => .IfcCableSegment
    | 91 => .IfcFurnishingElement
    | 92 => .IfcFurniture
    | 93 => IfcType.IfcAnnotation
    | 94 => .IfcGrid
    | 95 => .IfcStyledItem
    | 96 => .IfcPresentationStyleAssignment
    | 97 => .IfcSurfaceStyle
    | 98 => .IfcSurfaceStyleRendering
    | 99 => .IfcSurfaceStyleShading
    | 100 => .IfcColourRgb
    | 101 => .IfcOwnerHistory
    | 102 => .IfcPerson
    | 103 => .IfcOrganization
    | 104 => .IfcApplication
    | _ => .Unknown 0
  else .Unknown (n - 105)

theorem IfcType.untag_tag : ∀ t : IfcType, IfcType.untag t.tag = t := by
  intro t
  cases t
  case Unknown h =>
    show IfcType.untag (105 + h) = IfcType.Unknown h
    have hn : ¬ (105 + h < 105) := by omega
    unfold IfcType.untag
    rw [if_neg hn]
    congr 1
    omega
  all_goals rfl

instance : DecidableEq IfcType := fun a b =>
  if h : a.tag = b.tag then
    Decidable.isTrue (by rw [← IfcType.untag_tag a, ← IfcType.untag_tag b, h])
  else Decidable.isFalse (fun he => h (by rw [he]))

mutual

def attrBeqF : Nat → AttributeValue → AttributeValue → Bool
  | 0, _, _ => false
  | fuel + 1, a, b =>
    match a, b with
    | .EntityRef x, .EntityRef y => decide (x = y)
    | .Str x, .Str y => decide (x = y)
    | .Integer x, .Integer y => decide (x = y)
    | .Float x, .Float y => decide (x = y)
    | .Enum x, .Enum y => decide (x = y)
    | .Lst xs, .Lst ys => attrBeqLF fuel xs ys
    | .Null, .Null => true
    | .Derived, .Derived => true
    | _, _ => false

def attrBeqLF : Nat → List AttributeValue → List AttributeValue → Bool
  | 0, _, _ => false
  | _ + 1, [], [] => true
  | fuel + 1, x :: xs, y :: ys => attrBeqF fuel x y && attrBeqLF fuel xs ys
  | _ + 1, _, _ => false

end

theorem attrBeqF_sound_pair : ∀ (fuel : Nat),
    (∀ a b, attrBeqF fuel a b = true → a = b) ∧
    (∀ xs ys, attrBeqLF fuel xs ys = true → xs = ys) := by
  intro fuel
  induction fuel with
  | zero =>
    constructor
    · intro a b h; simp [attrBeqF] at h
    · intro xs ys h; simp [attrBeqLF] at h
  | succ n ih =>
    constructor
    · intro a b h
      cases a <;> cases b <;>
          simp only [attrBeqF, decide_eq_true_eq, Bool.false_eq_true] at h <;>
          first
            | rfl
            | rw [h]
            | exact congrArg AttributeValue.Lst (ih.2 _ _ h)
    · intro xs ys h
      cases xs with
      | nil =>
        cases ys with
        | nil => rfl
        | cons y ys => simp [attrBeqLF] at h
      | cons x xs =>
        cases ys with
        | nil => simp [attrBeqLF] at h
        | cons y ys =>
          simp only [attrBeqLF, Bool.and_eq_true] at h
          rw [ih.1 _ _ h.1, ih.2 _ _ h.2]

theorem attrBeqF_sound (fuel : Nat) (a b : AttributeValue)
    (h : attrBeqF fuel a b = true) : a = b :=
  (attrBeqF_sound_pair fuel).1 a b h

def entBeqF (fuel : Nat) (a b : DecodedEntity) : Bool :=
  decide (a.id = b.id) && decide (a.ifc_type = b.ifc_type) &&
    attrBeqF fuel (.Lst a.attributes) (.Lst b.attributes)

theorem entBeqF_sound (fuel : Nat) (a b : DecodedEntity)
    (h : entBeqF fuel a b = true) : a = b := by
  obtain ⟨i, t, attrs⟩ := a
  obtain ⟨j, u, battrs⟩ := b
  simp only [entBeqF, Bool.and_eq_true, decide_eq_true_eq] at h
  obtain ⟨⟨h1, h2⟩, h3⟩ := h
  have h4 := attrBeqF_sound fuel _ _ h3
  injection h4 with h5
  rw [h1, h2, h5]

def cacheBeqF (fuel : Nat) : List (Nat × DecodedEntity) → List (Nat × DecodedEntity) → Bool
  | [], [] => true
  | (i, e) :: xs, (j, f) :: ys =>
    decide (i = j) && entBeqF fuel e f && cacheBeqF fuel xs ys
  | _, _ => false

theorem cacheBeqF_sound (fuel : Nat) :
    ∀ (xs ys : List (Nat × DecodedEntity)), cacheBeqF fuel xs ys = true → xs = ys := by
  intro xs
  induction xs with
  | nil =>
    intro ys h
    cases ys with
    | nil => rfl
    | cons y ys => obtain ⟨j, f⟩ := y; simp [cacheBeqF] at h
  | cons x xs ihx =>
    intro ys h
    obtain ⟨i, e⟩ := x
    cases ys with
    | nil => simp [cacheBeqF] at h
    | cons y ys =>
      obtain ⟨j, f⟩ := y
      simp only [cacheBeqF, Bool.and_eq_true, decide_eq_true_eq] at h
      obtain ⟨⟨h1, h2⟩, h3⟩ := h
      rw [h1, entBeqF_sound fuel _ _ h2, ihx ys h3]

def decBeqF (fuel : Nat) (a b : EntityDecoder) : Bool :=
  decide (a.content = b.content) && cacheBeqF fuel a.cache b.cache &&
    decide (a.entity_index = b.entity_index)

theorem decBeqF_sound (fuel : Nat) (a b : EntityDecoder)
    (h : decBeqF fuel a b = true) : a = b := by
  obtain ⟨c1, k1, i1⟩ := a
  obtain ⟨c2, k2, i2⟩ := b
  simp only [decBeqF, Bool.and_eq_true, decide_eq_true_eq] at h
  obtain ⟨⟨h1, h2⟩, h3⟩ := h
  rw [h1, cacheBeqF_sound fuel _ _ h2, h3]

def resBeqF (fuel : Nat) (a b : Except String DecodedEntity × EntityDecoder) : Bool :=
  (match a.1, b.1 with
   | Except.ok x, Except.ok y => entBeqF fuel x y
   | Except.error m, Except.error m2 => decide (m = m2)
   | _, _ => false) && decBeqF fuel a.2 b.2

theorem resBeqF_sound (fuel : Nat) (a b : Except String DecodedEntity × EntityDecoder)
    (h : resBeqF fuel a b = true) : a = b := by
  obtain ⟨x, s⟩ := a
  obtain ⟨y, t⟩ := b
  simp only [resBeqF, Bool.and_eq_true] at h
  obtain ⟨h1, h2⟩ := h
  have hst := decBeqF_sound fuel _ _ h2
  cases x <;> cases y <;> simp only [decide_eq_true_eq, Bool.false_eq_true] at h1
  case error.error => rw [h1, hst]
  case ok.ok => rw [entBeqF_sound fuel _ _ h1, hst]

def scenario_a_content : List Char :=
  ("#1=IFCRECTANGLEPROFILEDEF(.AREA.,$,$,100.0,200.0);\n" ++
   "#2=IFCDIRECTION((0.0,0.0,1.0));\n" ++
   "#3=IFCEXTRUDEDAREASOLID(#1,$,#2,300.0);").data

def c1_idx : List (Nat × Nat × Nat) := [(1, 0, 50), (2, 51, 82), (3, 83, 122)]

def c1_ent3 : DecodedEntity :=
  ⟨3, IfcType.IfcExtrudedAreaSolid,
   [.EntityRef 1, .Null, .EntityRef 2, .Float 300]⟩

def c1_st3 : EntityDecoder := ⟨scenario_a_content, [(3, c1_ent3)], some c1_idx⟩

def c1_ent1 : DecodedEntity :=
  ⟨1, IfcType.IfcRectangleProfileDef,
   [.Enum "AREA", .Null, .Null, .Float 100, .Float 200]⟩

def c1_st4 : EntityDecoder := ⟨scenario_a_content, [(1, c1_ent1), (3, c1_ent3)], some c1_idx⟩

def c1_ent2 : DecodedEntity :=
  ⟨2, IfcType.IfcDirection, [.Lst [.Float 0, .Float 0, .Float 1]]⟩

def c1_st5 : EntityDecoder :=
  ⟨scenario_a_content, [(2, c1_ent2), (1, c1_ent1), (3, c1_ent3)], some c1_idx⟩

theorem c1_hdec3 : decode_by_id 3 (EntityDecoder.new scenario_a_content) =
    (Except.ok c1_ent3, c1_st3) :=
  resBeqF_sound 100 _ _ (by with_unfolding_all decide)

theorem c1_hdec1 : decode_by_id 1 c1_st3 = (Except.ok c1_ent1, c1_st4) :=
  resBeqF_sound 100 _ _ (by with_unfolding_all decide)

theorem c1_hdec2 : decode_by_id 2 c1_st4 = (Except.ok c1_ent2, c1_st5) :=
  resBeqF_sound 100 _ _ (by with_unfolding_all decide)

def scenario_a_run (earcut : List ℚ → List Nat → Nat → List Nat)
    (cosT sinT : ℚ → ℚ) : Except String Mesh × EntityDecoder :=
  (do
    let e ← decode_by_id 3
    extruded_area_solid_process earcut cosT sinT e) (EntityDecoder.new scenario_a_content)

def c1_profile : Profile2D := ⟨[⟨-50, -100⟩, ⟨50, -100⟩, ⟨50, 100⟩, ⟨-50, 100⟩], []⟩

def scenario_vertices : List ℚ := [-50, -100, 50, -100, 50, 100, -50, 100]

def scenario_tri (earcut : List ℚ → List Nat → Nat → List Nat) : Triangulation :=
  ⟨pairs_to_points scenario_vertices, earcut scenario_vertices [] 2⟩

def c1_earcut0 : List ℚ → List Nat → Nat → List Nat := fun _ _ _ => []

def c1_mesh_body (earcut : List ℚ → List Nat → Nat → List Nat) : Mesh :=
  create_side_walls c1_profile.outer 300
    (create_cap_mesh (scenario_tri earcut) 300 ⟨0, 0, 1⟩
      (create_cap_mesh (scenario_tri earcut) 0 ⟨0, 0, -1⟩ (Mesh.with_capacity 0 0)))

theorem DecM.run_bind {α β : Type} {x : DecM α} {f : α → DecM β}
    {st st1 : EntityDecoder} {a : α}
    (h : x st = (Except.ok a, st1)) : (x >>= f) st = f a st1 := by
  show (match x st with
        | (Except.ok a, st1) => f a st1
        | (Except.error e, st1) => (Except.error e, st1)) = f a st1
  rw [h]

theorem c1_hres1 : resolve_ref (AttributeValue.EntityRef 1) c1_st3 =
    (Except.ok (some c1_ent1), c1_st4) := by
  show (match decode_by_id 1 c1_st3 with
        | (Except.ok e, st1) => (Except.ok (some e), st1)
        | (Except.error m, st1) => (Except.error m, st1)) = _
  rw [c1_hdec1]

theorem c1_hres2 : resolve_ref (AttributeValue.EntityRef 2) c1_st4 =
    (Except.ok (some c1_ent2), c1_st5) := by
  show (match decode_by_id 2 c1_st4 with
        | (Except.ok e, st1) => (Except.ok (some e), st1)
        | (Except.error m, st1) => (Except.error m, st1)) = _
  rw [c1_hdec2]

theorem c1_hprof (cosT sinT : ℚ → ℚ) (st : EntityDecoder) :
    profile_process cosT sinT c1_ent1 st = (Except.ok c1_profile, st) := by
  with_unfolding_all rfl

theorem c1_run_eq (earcut : List ℚ → List Nat → Nat → List Nat) (cosT sinT : ℚ → ℚ) :
    scenario_a_run earcut cosT sinT = (Except.ok (c1_mesh_body earcut), c1_st5) := by
  unfold scenario_a_run
  refine Eq.trans (DecM.run_bind c1_hdec3) ?_
  show extruded_area_solid_process earcut cosT sinT c1_ent3 c1_st3 = _
  unfold extruded_area_solid_process
  refine Eq.trans (DecM.run_bind (by with_unfolding_all rfl)) ?_
  refine Eq.trans (DecM.run_bind c1_hres1) ?_
  refine Eq.trans (DecM.run_bind (by with_unfolding_all rfl)) ?_
  refine Eq.trans (DecM.run_bind (c1_hprof cosT sinT c1_st4)) ?_
  refine Eq.trans (DecM.run_bind (by with_unfolding_all rfl)) ?_
  refine Eq.trans (DecM.run_bind c1_hres2) ?_
  refine Eq.trans (DecM.run_bind (by with_unfolding_all rfl)) ?_
  refine Eq.trans (DecM.run_bind (by with_unfolding_all rfl)) ?_
  refine Eq.trans (DecM.run_bind (by with_unfolding_all rfl)) ?_
  refine Eq.trans (DecM.run_bind (by with_unfolding_all rfl)) ?_
  refine Eq.trans (DecM.run_bind (by with_unfolding_all rfl)) ?_
  with_unfolding_all rfl

theorem Mesh.add_vertex_positions (m : Mesh) (p n : V3) :
    (m.add_vertex p n).positions = m.positions ++ [p.x, p.y, p.z] := rfl

theorem Mesh.add_vertex_normals (m : Mesh) (p n : V3) :
    (m.add_vertex p n).normals = m.normals ++ [n.x, n.y, n.z] := rfl

theorem Mesh.add_triangle_positions (m : Mesh) (i0 i1 i2 : Nat) :
    (m.add_triangle i0 i1 i2).positions = m.positions := rfl

theorem Mesh.add_triangle_normals (m : Mesh) (i0 i1 i2 : Nat) :
    (m.add_triangle i0 i1 i2).normals = m.normals := rfl

theorem foldl_rel {α β : Type} (R : α → α → Prop) (f g : α → β → α)
    (hstep : ∀ a b, R a b → ∀ x, R (f a x) (g b x)) :
    ∀ (l : List β) (a b : α), R a b → R (l.foldl f a) (l.foldl g b) := by
  intro l
  induction l with
  | nil => intro a b h; exact h
  | cons x xs ih => intro a b h; exact ih _ _ (hstep a b h x)

/-- The positions and normals create_side_walls produces do not depend on
the index array of the mesh it extends. -/
theorem create_side_walls_indep (b : List V2) (d : ℚ) (p n : List ℚ) (i j : List Nat) :
    (create_side_walls b d ⟨p, n, i⟩).positions = (create_side_walls b d ⟨p, n, j⟩).positions ∧
    (create_side_walls b d ⟨p, n, i⟩).normals = (create_side_walls b d ⟨p, n, j⟩).normals := by
  unfold create_side_walls
  refine foldl_rel (fun (m m2 : Mesh) => m.positions = m2.positions ∧ m.normals = m2.normals)
    _ _ ?_ _ _ _ ⟨rfl, rfl⟩
  intro a a2 h x
  obtain ⟨h1, h2⟩ := h
  constructor
  · simp only [Mesh.add_triangle_positions, Mesh.add_vertex_positions, h1]
  · simp only [Mesh.add_triangle_normals, Mesh.add_vertex_normals, h2]

theorem Mesh.bounds_positions {m m2 : Mesh} (h : m.positions = m2.positions) :
    m.bounds = m2.bounds := by
  unfold Mesh.bounds Mesh.is_empty
  rw [h]

theorem Mesh.is_empty_positions {m m2 : Mesh} (h : m.positions = m2.positions) :
    m.is_empty = m2.is_empty := by
  unfold Mesh.is_empty
  rw [h]

theorem scenario_tri_points (earcut : List ℚ → List Nat → Nat → List Nat) :
    (scenario_tri earcut).points = pairs_to_points scenario_vertices := rfl

theorem scenario_tri_indices (earcut : List ℚ → List Nat → Nat → List Nat) :
    (scenario_tri earcut).indices = earcut scenario_vertices [] 2 := rfl

theorem c1_body_indep (earcut : List ℚ → List Nat → Nat → List Nat) :
    (c1_mesh_body earcut).positions = (c1_mesh_body c1_earcut0).positions := by
  unfold c1_mesh_body
  simp only [create_cap_mesh_eq, scenario_tri_points, scenario_tri_indices]
  exact (create_side_walls_indep _ _ _ _ _ _).1

theorem c1_empty0 : (c1_mesh_body c1_earcut0).is_empty = false := by
  with_unfolding_all decide

theorem c1_bounds0 : (c1_mesh_body c1_earcut0).bounds =
    (⟨-50, -100, 0⟩, ⟨50, 100, 300⟩) := by
  with_unfolding_all decide

/-- C1: on the Scenario A file, decoding entity 3 by id yields an
IfcExtrudedAreaSolid with exactly four attributes, and running it through
the extruded-area-solid processor yields Ok of a non-empty mesh whose
axis-aligned bounds are exactly min (-50,-100,0) and max (50,100,300) —
in particular within the 1e-3 tolerance the spec allows — for every
triangulator earcut and any trigonometric backend. -/
theorem c1_scenario_a (earcut : List ℚ → List Nat → Nat → List Nat) (cosT sinT : ℚ → ℚ) :
    ((decode_by_id 3 (EntityDecoder.new scenario_a_content)).1.toOption.map
        (fun e => (e.ifc_type, e.attributes.length))) =
      some (IfcType.IfcExtrudedAreaSolid, 4) ∧
    ((scenario_a_run earcut cosT sinT).1.toOption.map Mesh.is_empty) = some false ∧
    ((scenario_a_run earcut cosT sinT).1.toOption.map Mesh.bounds) =
      some (⟨-50, -100, 0⟩, ⟨50, 100, 300⟩) := by
  refine ⟨?_, ?_, ?_⟩
  · rw [c1_hdec3]
    rfl
  · rw [c1_run_eq earcut cosT sinT]
    exact congrArg some ((Mesh.is_empty_positions (c1_body_indep earcut)).trans c1_empty0)
  · rw [c1_run_eq earcut cosT sinT]
    exact congrArg some ((Mesh.bounds_positions (c1_body_indep earcut)).trans c1_bounds0)

end IfcLite
